import Mathlib

/-!
Verification development for the couchdb-promise repository (src/index.js,
which holds two client styles: a free-function API and a factory API that
captures a base endpoint).  The definitions below are a shallow embedding of
the request normalization layer: URL/query construction, payload encoding,
status resolution, request preflight, and response-end handling.  External
collaborators (Node url.parse output, JSON.parse, Node http.STATUS_CODES)
are modelled by explicit data or function parameters, as noted at each site.
-/

set_option autoImplicit false

namespace Couch

/-- JSON values exchanged with the database.  Numbers are modelled as
integers, which covers every numeric literal this client produces. -/
inductive Json where
  | null
  | bool (b : Bool)
  | num (n : Int)
  | str (s : String)
  | arr (elems : List Json)
  | obj (fields : List (String × Json))

/-- The double-quote character (U+0022). -/
def dq : String := String.singleton (Char.ofNat 34)

/-- One hex digit, upper case. -/
def hexDigit (n : Nat) : String :=
  if n < 10 then String.singleton (Char.ofNat (48 + n))
  else String.singleton (Char.ofNat (55 + n))

/-- Escaping of one character inside a JSON string literal, as performed by
JSON.stringify. -/
def jsonEscapeChar (c : Char) : String :=
  if c = Char.ofNat 34 then "\\" ++ dq
  else if c = Char.ofNat 92 then "\\\\"
  else if c = Char.ofNat 10 then "\\n"
  else if c = Char.ofNat 13 then "\\r"
  else if c = Char.ofNat 9 then "\\t"
  else if c = Char.ofNat 8 then "\\b"
  else if c = Char.ofNat 12 then "\\f"
  else if c.toNat < 32 then "\\u00" ++ hexDigit (c.toNat / 16) ++ hexDigit (c.toNat % 16)
  else String.singleton c

/-- Escaping of a whole JSON string body. -/
def jsonEscape (s : String) : String :=
  String.join (s.data.map jsonEscapeChar)

mutual

/-- Model of JSON.stringify on a JSON value (the serializable fragment; a
cyclic object has no Json representation and is modelled elsewhere). -/
def jsonStringify : Json → String
  | .null => "null"
  | .bool b => cond b "true" "false"
  | .num n => toString n
  | .str s => dq ++ jsonEscape s ++ dq
  | .arr es => "[" ++ String.intercalate "," (jsonStringifyList es) ++ "]"
  | .obj fs => "\x7b" ++ String.intercalate "," (jsonStringifyFields fs) ++ "\x7d"

def jsonStringifyList : List Json → List String
  | [] => []
  | e :: es => jsonStringify e :: jsonStringifyList es

def jsonStringifyFields : List (String × Json) → List String
  | [] => []
  | (k, v) :: fs => (dq ++ jsonEscape k ++ dq ++ ":" ++ jsonStringify v) :: jsonStringifyFields fs

end

/-- Characters left unescaped by encodeURIComponent / querystring.escape:
alphanumerics and - _ . ! ~ * apostrophe ( ). -/
def isUriUnreserved (c : Char) : Bool :=
  c.isAlphanum || c.toNat = 45 || c.toNat = 95 || c.toNat = 46 || c.toNat = 33 ||
  c.toNat = 126 || c.toNat = 42 || c.toNat = 39 || c.toNat = 40 || c.toNat = 41

/-- UTF-8 bytes of one character. -/
def utf8Bytes (c : Char) : List Nat :=
  let n := c.toNat
  if n < 128 then [n]
  else if n < 2048 then [192 + n / 64, 128 + n % 64]
  else if n < 65536 then [224 + n / 4096, 128 + n / 64 % 64, 128 + n % 64]
  else [240 + n / 262144, 128 + n / 4096 % 64, 128 + n / 64 % 64, 128 + n % 64]

/-- Percent-encoding of one byte, upper-case hex. -/
def percentByte (b : Nat) : String :=
  "%" ++ hexDigit (b / 16 % 16) ++ hexDigit (b % 16)

/-- Model of encodeURIComponent (UTF-8 percent encoding). -/
def encodeURIComponent (s : String) : String :=
  String.join (s.data.map fun c =>
    if isUriUnreserved c then String.singleton c
    else String.join ((utf8Bytes c).map percentByte))

/-- Node querystring.escape keeps the same unreserved set. -/
def qsEscape (s : String) : String := encodeURIComponent s

/-- Coercion of a primitive value for querystring.stringify: strings pass
through, numbers and booleans are stringified, anything else becomes "". -/
def qsPrimitive : Json → String
  | .str s => s
  | .num n => toString n
  | .bool b => cond b "true" "false"
  | _ => ""

/-- The key=value components emitted by querystring.stringify, an array value
producing one component per element. -/
def qsPairs : List (String × Json) → List String
  | [] => []
  | (k, .arr es) :: kvs => es.map (fun e => qsEscape k ++ "=" ++ qsEscape (qsPrimitive e)) ++ qsPairs kvs
  | (k, v) :: kvs => (qsEscape k ++ "=" ++ qsEscape (qsPrimitive v)) :: qsPairs kvs

/-- Model of Node querystring.stringify. -/
def qsStringify (kvs : List (String × Json)) : String :=
  String.intercalate "&" (qsPairs kvs)

/-- src/index.js:29 (and its duplicate in the factory file): the four
reserved query keys whose values are JSON-serialized. -/
def QUERY_KEYS_JSON : List String := ["key", "keys", "startkey", "endkey"]

/-- The per-key transformation step of createQueryString: when the key is
present in the object, its value is replaced by its JSON serialization. -/
def jsonifyStep (o : List (String × Json)) (key : String) : List (String × Json) :=
  if o.any (fun kv => kv.1 = key) then
    o.map (fun kv => if kv.1 = key then (kv.1, Json.str (jsonStringify kv.2)) else kv)
  else o

/-- The QUERY_KEYS_JSON.forEach loop of createQueryString. -/
def jsonifyReserved (o : List (String × Json)) : List (String × Json) :=
  QUERY_KEYS_JSON.foldl jsonifyStep o

/-- src/index.js:44-52 createQueryString (the factory file at 887-895 is the
identical function).  A JS object is modelled as an association list; the
argument is optional (the API functions pass the caller query object through,
possibly undefined, and Object.assign on undefined yields the empty copy). -/
def createQueryString (queryObj : Option (List (String × Json))) : String :=
  let obj := jsonifyReserved (queryObj.getD [])
  if obj.length = 0 then "" else "?" ++ qsStringify obj

/-- A status table: an object mapping integer status codes to strings. -/
abbrev StatusTable : Type := List (Nat × String)

/-- Property lookup on a status table (undefined when absent). -/
def tlookup (t : StatusTable) (code : Nat) : Option String :=
  (List.find? (fun kv => kv.1 = code) t).map (fun kv => kv.2)

/-- The JS expression x || y on a possibly-undefined string x: y is taken
when x is undefined or the empty string (falsy). -/
def jsOrS (x : Option String) (y : String) : String :=
  match x with
  | some s => if s = "" then y else s
  | none => y

/-- src/index.js:10-27 GENERIC_STATUS_CODES. -/
def GENERIC_STATUS_CODES : StatusTable :=
  [(200, "OK"),
   (201, "Created"),
   (202, "Accepted"),
   (304, "Not Modified"),
   (400, "Bad Request"),
   (401, "Unauthorized"),
   (403, "Forbidden"),
   (404, "Not Found"),
   (405, "Resource Not Allowed"),
   (406, "Not Acceptable"),
   (409, "Conflict"),
   (412, "Precondition Failed"),
   (415, "Bad Content Type"),
   (416, "Requested Range Not Satisfiable"),
   (417, "Expectation Failed"),
   (500, "Internal Server Error")]

/-- Modelled collaborator: Node http.STATUS_CODES (the process-wide generic
table the factory style merges under the per-call table).  Entries follow the
IANA registry names Node ships. -/
def STATUS_CODES_NODE : StatusTable :=
  [(100, "Continue"), (101, "Switching Protocols"), (102, "Processing"),
   (200, "OK"), (201, "Created"), (202, "Accepted"),
   (203, "Non-Authoritative Information"), (204, "No Content"),
   (205, "Reset Content"), (206, "Partial Content"), (207, "Multi-Status"),
   (300, "Multiple Choices"), (301, "Moved Permanently"), (302, "Found"),
   (303, "See Other"), (304, "Not Modified"), (305, "Use Proxy"),
   (307, "Temporary Redirect"), (308, "Permanent Redirect"),
   (400, "Bad Request"), (401, "Unauthorized"), (402, "Payment Required"),
   (403, "Forbidden"), (404, "Not Found"), (405, "Method Not Allowed"),
   (406, "Not Acceptable"), (407, "Proxy Authentication Required"),
   (408, "Request Timeout"), (409, "Conflict"), (410, "Gone"),
   (411, "Length Required"), (412, "Precondition Failed"),
   (413, "Payload Too Large"), (414, "URI Too Long"),
   (415, "Unsupported Media Type"), (416, "Range Not Satisfiable"),
   (417, "Expectation Failed"), (418, "I\x27m a Teapot"),
   (421, "Misdirected Request"), (422, "Unprocessable Entity"),
   (423, "Locked"), (424, "Failed Dependency"), (426, "Upgrade Required"),
   (428, "Precondition Required"), (429, "Too Many Requests"),
   (431, "Request Header Fields Too Large"),
   (451, "Unavailable For Legal Reasons"),
   (500, "Internal Server Error"), (501, "Not Implemented"),
   (502, "Bad Gateway"), (503, "Service Unavailable"),
   (504, "Gateway Timeout"), (505, "HTTP Version Not Supported"),
   (506, "Variant Also Negotiates"), (507, "Insufficient Storage"),
   (508, "Loop Detected"), (510, "Not Extended"),
   (511, "Network Authentication Required")]

/-- Object.assign({}, base, override): entries of override shadow base. -/
def objAssign (base override : StatusTable) : StatusTable :=
  base.map (fun kv =>
    match tlookup override kv.1 with
    | some v => (kv.1, v)
    | none => kv) ++
  override.filter (fun kv => (tlookup base kv.1).isNone)

/-- src/index.js:149: the free-function style resolves a status message as
statusCodes[code] || GENERIC_STATUS_CODES[code] || unknown status.  The table
argument is the per-call table after the `param.statusCodes || ` default (an
object is always truthy, so only undefined falls back; callers pass the
post-default table here). -/
def resolveStatusFree (statusCodes : StatusTable) (code : Nat) : String :=
  jsOrS (tlookup statusCodes code) (jsOrS (tlookup GENERIC_STATUS_CODES code) "unknown status")

/-- src/index.js:897-900 (factory file): statusCode merges the per-call table
over Node http.STATUS_CODES with Object.assign and then applies the
falsy-default.  The per-call table may be undefined. -/
def statusCode (statusCodes : Option StatusTable) (status : Nat) : String :=
  let codes := objAssign STATUS_CODES_NODE (statusCodes.getD [])
  jsOrS (tlookup codes status) "unknown status"

/-! ## URL model

Node url.parse is an external collaborator; a target URL is represented by
its parse result.  Fields absent from the parse (null/undefined) are none. -/

/-- The parse result of url.parse on a target string. -/
structure Url where
  protocol : Option String := none
  slashes : Option Bool := none
  auth : Option String := none
  host : Option String := none
  hostname : Option String := none
  port : Option String := none
  path : Option String := none
  deriving Repr, DecidableEq

/-- JS truthiness of a possibly-undefined string. -/
def truthyS : Option String → Bool
  | none => false
  | some s => s != ""

/-- Number.isNaN(Number(p)) on a possibly-undefined port string: Number of
null is 0 (not NaN); a digit string (the only ports the legacy parser emits)
is numeric, anything with a non-digit character is NaN. -/
def jsNumberIsNaN : Option String → Bool
  | none => false
  | some s => !(s.data.all Char.isDigit)

/-- Number.isNaN(parseInt(p, 10)): parseInt of undefined or of a string with
no leading digit is NaN. -/
def parseIntIsNaN : Option String → Bool
  | none => true
  | some s =>
    match s.data with
    | [] => true
    | c :: _ => !c.isDigit

/-- src/index.js:33-42 isValidUrl. -/
def isValidUrl (o : Url) : Bool :=
  if ((o.protocol != some "http:") && (o.protocol != some "https:")) ||
     o.slashes == some false ||
     jsNumberIsNaN o.port ||
     !(truthyS o.hostname)
  then false else true

/-- The characters before the first colon. -/
def takeUntilColon : List Char → List Char
  | [] => []
  | c :: cs => if c.toNat = 58 then [] else c :: takeUntilColon cs

/-- The expression o.host.split(":")[0]: everything before the first
colon (the whole string when there is none). -/
def splitColonHead (s : String) : String :=
  ⟨takeUntilColon s.data⟩

/-! ## Envelopes, settlements and payload values -/

/-- The data field of a Result Envelope. -/
inductive DataVal where
  /-- A parsed JSON body. -/
  | json (j : Json)
  /-- A JS Error object carrying the given .message. -/
  | jsError (message : String)
  /-- A plain string value. -/
  | rawString (s : String)
  /-- An object of shape error-field-wrapping-a-value (factory style). -/
  | errWrap (inner : DataVal)

/-- The Result Envelope.  data is absent (none) on stream-executor
envelopes; duration is present only in the factory style. -/
structure Envelope where
  headers : List (String × String) := []
  data : Option DataVal := none
  status : Nat
  message : String
  duration : Option Nat := none

/-- The single terminal outcome of a deferred call. -/
inductive Settlement where
  /-- Resolved with an envelope. -/
  | fulfilled (e : Envelope)
  /-- Rejected with an envelope. -/
  | rejected (e : Envelope)
  /-- Rejected with a bare Error value (not an envelope). -/
  | rejectedError (message : String)

/-- True exactly on the rejection channel. -/
def Settlement.isRejection : Settlement → Bool
  | .fulfilled _ => false
  | _ => true

/-- An outgoing payload value (the postData argument), classified by the
structural inspections the encoder performs.  A plain object is abstracted
by the result of JSON.stringify on it: none models an unserializable
(e.g. cyclic) object whose stringify throws. -/
inductive JSValue where
  | undefined
  | null
  | bool (b : Bool)
  | num (n : Int)
  | str (s : String)
  | buffer (bytes : List Nat)
  /-- A readable stream (readable is true and it has a _read function). -/
  | stream
  | obj (ser : Option String)
  /-- An array (truthy, but not a buffer, stream, plain object or string). -/
  | arr
  deriving Repr, DecidableEq

/-- JS truthiness of a payload value. -/
def JSValue.truthy : JSValue → Bool
  | .undefined => false
  | .null => false
  | .bool b => b
  | .num n => n != 0
  | .str s => s != ""
  | _ => true

/-- A header (or option) slot value: a string, a number, or undefined. -/
inductive JsVal where
  | s (v : String)
  | n (v : Nat)
  | undefined
  deriving Repr, DecidableEq

/-- A header assignment list / header object (assignment order preserved). -/
abbrev Headers : Type := List (String × JsVal)

/-- Property assignment on a header object: replace if present, else append. -/
def hset (hs : Headers) (k : String) (v : JsVal) : Headers :=
  if hs.any (fun kv => kv.1 = k) then
    hs.map (fun kv => if kv.1 = k then (k, v) else kv)
  else hs ++ [(k, v)]

/-- Apply a list of header assignments in order. -/
def applyAssigns (hs : Headers) (assigns : Headers) : Headers :=
  assigns.foldl (fun h kv => hset h kv.1 kv.2) hs

/-- The header value taken from an optional caller content type (assigning
undefined keeps the slot undefined). -/
def hvOfCT : Option String → JsVal
  | some c => .s c
  | none => .undefined

/-! ## Payload encoder (src/index.js:83-130 and factory file 917-965) -/

/-- The body selected by the encoder. -/
inductive EncBody where
  | none
  | text (s : String)
  | bytes (bs : List Nat)
  deriving Repr, DecidableEq

/-- Result of the payload-dispatch section of request. -/
inductive EncResult where
  /-- Dispatch succeeded: chosen body, whether a readable stream will be
  piped, and the header assignments made (in order). -/
  | ok (body : EncBody) (stream : Bool) (assigns : Headers)
  /-- The error variable was set: the call is rejected with a status-400
  invalid-post-data envelope carrying this data. -/
  | invalid (data : DataVal)
  /-- A synchronous TypeError escaped (Buffer.byteLength called on the
  undefined body left by a failed JSON.stringify); the header assignments
  already performed are recorded. -/
  | thrown (message : String) (assigns : Headers)

/-- Message of the TypeError Buffer.byteLength raises on undefined
(modelled from Node >= 6; on archaic Node the call instead coerced and the
error path fell through to the rejection below). -/
def byteLengthTypeError : String :=
  "\x22string\x22 must be a string, Buffer, or ArrayBuffer"

/-- src/index.js:87-121: the free-style payload dispatch.  Branch order
follows the source: buffer, readable stream, plain object, string, then a
truthy unhandled value sets the error string (spelled unsoported there). -/
def encodePayloadFree (postData : JSValue) (postContentType : Option String) : EncResult :=
  match postData with
  | .buffer bs =>
    .ok (.bytes bs) false
      [("content-type", hvOfCT postContentType), ("content-length", .n bs.length)]
  | .stream =>
    .ok .none true
      [("content-type", hvOfCT postContentType), ("Transfer-Encoding", .s "chunked")]
  | .obj ser =>
    match ser with
    | some body =>
      .ok (.text body) false
        [("content-type", .s "application/json"), ("content-length", .n body.utf8ByteSize)]
    | none => .thrown byteLengthTypeError [("content-type", .s "application/json")]
  | .str s =>
    .ok (.text s) false
      [("content-type", hvOfCT postContentType), ("content-length", .n s.length)]
  | v =>
    if v.truthy then .invalid (.rawString "unsoported post data")
    else .ok .none false []

/-- Factory file 921-955: identical dispatch except that the final guard also
catches null (postData || postData === null) and the error is spelled
unsupported; the rejection data is wrapped in an error-field object by the
caller (src 960). -/
def encodePayloadFactory (postData : JSValue) (postContentType : Option String) : EncResult :=
  match postData with
  | .buffer bs =>
    .ok (.bytes bs) false
      [("content-type", hvOfCT postContentType), ("content-length", .n bs.length)]
  | .stream =>
    .ok .none true
      [("content-type", hvOfCT postContentType), ("Transfer-Encoding", .s "chunked")]
  | .obj ser =>
    match ser with
    | some body =>
      .ok (.text body) false
        [("content-type", .s "application/json"), ("content-length", .n body.utf8ByteSize)]
    | none => .thrown byteLengthTypeError [("content-type", .s "application/json")]
  | .str s =>
    .ok (.text s) false
      [("content-type", hvOfCT postContentType), ("content-length", .n s.length)]
  | v =>
    if v.truthy || v == .null then .invalid (.errWrap (.rawString "unsupported post data"))
    else .ok .none false []

/-! ## Request preflight (the synchronous phase of request / requestStream) -/

/-- What goes on the wire when the request body is written. -/
inductive WireBody where
  | empty
  | text (s : String)
  | bytes (bs : List Nat)
  /-- Chunks piped from a readable payload stream. -/
  | chunked
  deriving Repr, DecidableEq

/-- The write phase at the end of request: a truthy body is written, else a
payload stream is piped, else the request ends bodyless (an empty body
string is falsy and is not written). -/
def wireBodyOf : EncBody → Bool → WireBody
  | .bytes bs, _ => .bytes bs
  | .text s, strm => if s != "" then .text s else if strm then .chunked else .empty
  | .none, strm => if strm then .chunked else .empty

/-- The single HTTP request handed to the transport: the httpOptions object
plus the encoded body.  (rejectUnauthorized and timeout are connection
configuration, not part of the wire request.) -/
structure WireRequest where
  hostname : Option String
  port : JsVal
  path : Option String
  auth : Option String
  protocol : Option String
  method : Option String
  headers : Headers
  body : WireBody
  deriving Repr, DecidableEq

/-- o.port || 443 in httpOptions. -/
def jsOrPort : Option String → JsVal
  | some s => if s = "" then .n 443 else .s s
  | none => .n 443

/-- The envelope of the bad-target rejection (src/index.js:75-80, 220-225). -/
def badRequestEnvelope : Envelope :=
  { headers := [], data := some (.jsError "Bad request"), status := 400,
    message := "Error: Bad request" }

/-- Outcome of the synchronous phase of request: immediate rejection, an
escaped synchronous exception, or one wire request handed to the network. -/
inductive Preflight where
  | reject (e : Envelope)
  | thrown (message : String)
  | network (w : WireRequest)

/-- src/index.js:68-71: the fresh headers object of the free-style request. -/
def baseHeadersFree : Headers :=
  [("user-agent", .s "couchdb-promises"), ("accept", .s "application/json")]

/-- src/index.js:214-216: the fresh headers object of the free-style
requestStream (note: no accept header). -/
def baseHeadersStreamFree : Headers :=
  [("user-agent", .s "couchdb-promises")]

/-- The free-style request parameter object. -/
structure ParamF where
  url : Url
  method : String
  statusCodes : Option StatusTable := Option.none
  postData : JSValue := .undefined
  postContentType : Option String := Option.none

/-- src/index.js:54-196 request (free style), up to handing one request to
the transport: build httpOptions, reject invalid targets, dispatch the
payload, reject an invalid payload, and otherwise issue the wire request. -/
def requestFree (p : ParamF) : Preflight :=
  let o := p.url
  if !isValidUrl o then .reject badRequestEnvelope
  else
    match encodePayloadFree p.postData p.postContentType with
    | .thrown m _ => .thrown m
    | .invalid d =>
      .reject { headers := [], data := some d, status := 400, message := "invalid post data" }
    | .ok body strm assigns =>
      .network
        { hostname := o.host.map splitColonHead,
          port := jsOrPort o.port,
          path := o.path,
          auth := o.auth,
          protocol := o.protocol,
          method := some p.method,
          headers := applyAssigns baseHeadersFree assigns,
          body := wireBodyOf body strm }

/-- The free-style requestStream parameter object; the caller-supplied sink
is abstracted by whether it passes the writable-sink inspection
(stream and stream.writable and typeof stream.pipe is a function). -/
structure ParamS where
  url : Url
  statusCodes : Option StatusTable := Option.none
  sinkOk : Bool

/-- Outcome of the synchronous phase of requestStream. -/
inductive StreamPreflight where
  /-- The assert on the sink threw an AssertionError synchronously. -/
  | assertThrown (message : String)
  | reject (e : Envelope)
  | network (w : WireRequest)

/-- src/index.js:199-265 requestStream (free style) up to handing one GET
request to the transport.  The sink assert runs before the URL check. -/
def requestStreamFree (p : ParamS) : StreamPreflight :=
  if !p.sinkOk then .assertThrown "is writeable stream"
  else if !isValidUrl p.url then .reject badRequestEnvelope
  else
    .network
      { hostname := p.url.host.map splitColonHead,
        port := jsOrPort p.url.port,
        path := p.url.path,
        auth := p.url.auth,
        protocol := p.url.protocol,
        method := some "GET",
        headers := baseHeadersStreamFree,
        body := .empty }

/-! ## Response handling and executor settlement

JSON.parse is an external collaborator, passed in as a function returning
either the parsed value or the thrown error message. -/

/-- The literal text of an empty JSON object, substituted for an empty
response buffer. -/
def emptyObjectText : String := "\x7b\x7d"

/-- src/index.js:142-161, the res end handler of the free-style request:
parse the accumulated buffer (empty buffer replaced by the empty-object
text), build the envelope with the free-style status resolution, fall back
to a 500 envelope when the parse throws, and resolve unconditionally. -/
def handleEndFree (parse : String → Except String Json) (statusCodes : Option StatusTable)
    (resHeaders : List (String × String)) (resStatus : Nat) (buffer : String) : Settlement :=
  match parse (if buffer = "" then emptyObjectText else buffer) with
  | .ok j =>
    .fulfilled
      { headers := resHeaders, data := some (.json j), status := resStatus,
        message := resolveStatusFree (statusCodes.getD []) resStatus }
  | .error e =>
    .fulfilled
      { headers := resHeaders, data := some (.jsError e), status := 500,
        message := jsOrS (some e) "internal error" }

/-- Factory file 975-999, the res end handler of the factory request: same
parse with the empty-object default, the factory status resolution, the
parse error wrapped in an error-field object, a duration field (elapsed
time, supplied here as a parameter), and settlement split on status < 400:
below 400 resolve, otherwise reject. -/
def handleEndFactory (parse : String → Except String Json) (statusCodes : Option StatusTable)
    (resHeaders : List (String × String)) (resStatus : Nat) (buffer : String)
    (dur : Nat) : Settlement :=
  let ret : Envelope :=
    match parse (if buffer = "" then emptyObjectText else buffer) with
    | .ok j =>
      { headers := resHeaders, data := some (.json j), status := resStatus,
        message := statusCode statusCodes resStatus, duration := some dur }
    | .error e =>
      { headers := resHeaders, data := some (.errWrap (.rawString e)), status := 500,
        message := jsOrS (some e) "internal error", duration := some dur }
  if ret.status < 400 then .fulfilled ret else .rejected ret

/-- src/index.js:230-243, the response handler of the free-style
requestStream: the body is piped to the sink, the envelope carries no data
field, and settlement splits on status < 400. -/
def handleStreamResFree (statusCodes : Option StatusTable)
    (resHeaders : List (String × String)) (resStatus : Nat) : Settlement :=
  let ret : Envelope :=
    { headers := resHeaders, data := none, status := resStatus,
      message := resolveStatusFree (statusCodes.getD []) resStatus }
  if ret.status < 400 then .fulfilled ret else .rejected ret

/-- The terminal network event of one HTTP exchange: the transport either
delivers a complete response, times out, or fails. -/
inductive NetEvent where
  | response (headers : List (String × String)) (status : Nat) (body : String)
  | timeout
  | transportError (message : String)

/-- src/index.js:132-196: the settlement the free-style executor produces
for each terminal network event (response end at 142-161, timeout at
164-172, transport error at 174-181). -/
def settleFree (parse : String → Except String Json) (statusCodes : Option StatusTable) :
    NetEvent → Settlement
  | .response h s b => handleEndFree parse statusCodes h s b
  | .timeout =>
    .rejected
      { headers := [], data := some (.jsError "request timed out"), status := 500,
        message := "Error: request timed out" }
  | .transportError m =>
    .rejected
      { headers := [], data := some (.jsError m), status := 500,
        message := jsOrS (some m) "internal error" }

/-- Factory file 967-1037: the settlement of the factory executor for each
terminal network event (timeout at 1003-1012, transport error at 1014-1022,
both wrapping the cause in an error-field object and carrying duration). -/
def settleFactory (parse : String → Except String Json) (statusCodes : Option StatusTable)
    (dur : Nat) : NetEvent → Settlement
  | .response h s b => handleEndFactory parse statusCodes h s b dur
  | .timeout =>
    .rejected
      { headers := [], data := some (.errWrap (.rawString "request timed out")), status := 500,
        message := "Error: request timed out", duration := some dur }
  | .transportError m =>
    .rejected
      { headers := [], data := some (.errWrap (.jsError m)), status := 500,
        message := jsOrS (some m) "internal error", duration := some dur }

/-! ## Factory constructor and factory request (second source file) -/

/-- The options object passed to the factory constructor; baseUrl is the
parse result of the supplied base endpoint (none when the property is
missing). -/
structure FactoryOpt where
  baseUrl : Option Url := none
  requestTimeout : Option Nat := none
  verifyCertificate : Option Bool := none

/-- The connection state the factory captures at construction: the fields of
the shared httpOptions object that never change afterwards. -/
structure Client where
  hostname : Option String
  port : Option String
  auth : Option String
  protocol : Option String
  rejectUnauthorized : Bool
  requestTimeout : Nat
  deriving Repr, DecidableEq

/-- Factory file 856-885, module.exports: merge defaults with the caller
options, throw on a missing baseUrl, throw unless the parsed base has an
http/https scheme, slashes, a parseInt-able port and a hostname, then
capture the shared httpOptions.  A throw is modelled as error. -/
def mkCouch (opt : FactoryOpt) : Except String Client :=
  let requestTimeout := opt.requestTimeout.getD 10000
  let verifyCertificate := opt.verifyCertificate.getD true
  match opt.baseUrl with
  | none => .error ("missing property " ++ dq ++ "baseUrl" ++ dq)
  | some o =>
    if !(((o.protocol == some "http:") || (o.protocol == some "https:")) &&
         o.slashes == some true &&
         !parseIntIsNaN o.port &&
         truthyS o.hostname)
    then .error "invalid baseUrl"
    else
      .ok
        { hostname := o.host.map splitColonHead,
          port := o.port,
          auth := o.auth,
          protocol := o.protocol,
          rejectUnauthorized := verifyCertificate,
          requestTimeout := requestTimeout }

/-- Factory file 881-884: the initial contents of the shared
httpOptions.headers object. -/
def baseHeadersFactory : Headers :=
  [("user-agent", .s "couchdb-promises"), ("accept", .s "application/json")]

/-- The factory request parameter object.  method stays undefined when the
caller never sets it (the getUrlPath function misspells the property). -/
structure ParamB where
  path : String
  method : Option String := Option.none
  statusCodes : Option StatusTable := Option.none
  postData : JSValue := .undefined
  postContentType : Option String := Option.none
  /-- param.headers.Destination, when a headers object is passed. -/
  destination : Option String := Option.none

/-- The port slot of the shared httpOptions (port: o.port). -/
def clientPortVal : Option String → JsVal
  | some s => .s s
  | none => .undefined

/-- Factory file 902-1038, request: mutate the shared options (method, path,
conditionally the Destination header), dispatch the payload mutating the
shared headers, reject an invalid payload, else issue the wire request.
Returns the preflight outcome together with the shared headers object as
left for the next call.  Elapsed durations are modelled as 0. -/
def requestFactory (cl : Client) (hs : Headers) (p : ParamB) : Preflight × Headers :=
  let hs :=
    match p.destination with
    | some d => if d != "" then hset hs "Destination" (.s d) else hs
    | none => hs
  match encodePayloadFactory p.postData p.postContentType with
  | .thrown m asg => (.thrown m, applyAssigns hs asg)
  | .invalid d =>
    (.reject { headers := [], data := some d, status := 400,
               message := "invalid post data", duration := some 0 }, hs)
  | .ok body strm assigns =>
    let hs := applyAssigns hs assigns
    (.network
      { hostname := cl.hostname,
        port := clientPortVal cl.port,
        path := some ("/" ++ p.path),
        auth := cl.auth,
        protocol := cl.protocol,
        method := p.method,
        headers := hs,
        body := wireBodyOf body strm }, hs)

/-- The factory requestStream parameter object. -/
structure ParamSB where
  path : String
  statusCodes : Option StatusTable := Option.none
  sinkOk : Bool

/-- Factory file 1040-1092, requestStream: assert the sink, set method GET
and the path on the shared options, and issue the wire request with the
shared headers as they currently stand. -/
def requestStreamFactory (cl : Client) (hs : Headers) (p : ParamSB) : StreamPreflight × Headers :=
  if !p.sinkOk then (.assertThrown "is writeable stream", hs)
  else
    (.network
      { hostname := cl.hostname,
        port := clientPortVal cl.port,
        path := some ("/" ++ p.path),
        auth := cl.auth,
        protocol := cl.protocol,
        method := some "GET",
        headers := hs,
        body := .empty }, hs)

/-! ## API surface

The per-endpoint status tables are literal data; each table below appears
verbatim in both source files (free functions and factory methods), so it is
declared once and referenced by both builders. -/

def stOk : StatusTable := [(200, "OK - Request completed successfully")]

def stCreateDb : StatusTable :=
  [(201, "Created - Database created successfully"),
   (400, "Bad Request - Invalid database name"),
   (401, "Unauthorized - CouchDB Server Administrator privileges required"),
   (412, "Precondition Failed - Database already exists")]

def stGetDb : StatusTable :=
  [(200, "OK - Request completed successfully"),
   (404, "Not Found – Requested database not found")]

def stHeadDb : StatusTable :=
  [(200, "OK - Database exists"),
   (404, "Not Found – Requested database not found")]

def stDeleteDb : StatusTable :=
  [(200, "OK - Database removed successfully"),
   (400, "Bad Request - Invalid database name or forgotten document id by accident"),
   (401, "Unauthorized - CouchDB Server Administrator privileges required"),
   (404, "Not Found - Database doesn’t exist")]

def stHeadDoc : StatusTable :=
  [(200, "OK - Document exists"),
   (304, "Not Modified - Document wasn’t modified since specified revision"),
   (401, "Unauthorized - Read privilege required"),
   (404, "Not Found - Document not found")]

def stGetDoc : StatusTable :=
  [(200, "OK - Request completed successfully"),
   (304, "Not Modified - Document wasn’t modified since specified revision"),
   (400, "Bad Request - The format of the request or revision was invalid"),
   (401, "Unauthorized - Read privilege required"),
   (404, "Not Found - Document not found")]

def stCreateDocPut : StatusTable :=
  [(201, "Created – Document created and stored on disk"),
   (202, "Accepted – Document data accepted, but not yet stored on disk"),
   (400, "Bad Request – Invalid request body or parameters"),
   (401, "Unauthorized – Write privileges required"),
   (404, "Not Found – Specified database or document ID doesn’t exists"),
   (409, "Conflict – Document with the specified ID already exists or specified revision is not latest for target document")]

def stCreateDocPost : StatusTable :=
  [(201, "Created – Document created and stored on disk"),
   (202, "Accepted – Document data accepted, but not yet stored on disk"),
   (400, "Bad Request – Invalid database name"),
   (401, "Unauthorized – Write privileges required"),
   (404, "Not Found – Database doesn’t exists"),
   (409, "Conflict – A Conflicting Document with same ID already exists")]

def stDeleteDoc : StatusTable :=
  [(200, "OK - Document successfully removed"),
   (202, "Accepted - Request was accepted, but changes are not yet stored on disk"),
   (400, "Bad Request - Invalid request body or parameters"),
   (401, "Unauthorized - Write privilege required"),
   (404, "Not Found - Specified database or document ID doesn\x27t exist"),
   (409, "Conflict - Specified revision is not the latest for target document")]

def stUuids : StatusTable :=
  [(200, "OK - Request completed successfully"),
   (403, "Forbidden – Requested more UUIDs than is allowed to retrieve")]

def stAttachmentHead : StatusTable :=
  [(200, "OK - Attachment exists"),
   (304, "Not Modified - Attachment wasn’t modified if ETag equals specified If-None-Match header"),
   (401, "Unauthorized - Read privilege required"),
   (404, "Not Found - Specified database, document or attchment was not found")]

def stAttachmentAdd : StatusTable :=
  [(201, "OK - Created"),
   (202, "Accepted - Request was but changes are not yet stored on disk"),
   (401, "Unauthorized - Write privilege required"),
   (404, "Not Found - Specified database, document or attchment was not found"),
   (409, "409 Conflict – Document’s revision wasn’t specified or it’s not the latest")]

def stAttachmentDelete : StatusTable :=
  [(200, "OK – Attachment successfully removed"),
   (202, "Accepted - Request was but changes are not yet stored on disk"),
   (400, "400 Bad Request – Invalid request body or parameters"),
   (401, "Unauthorized - Write privilege required"),
   (404, "Not Found - Specified database, document or attchment was not found"),
   (409, "409 Conflict – Document’s revision wasn’t specified or it’s not the latest")]

def stBulk : StatusTable :=
  [(201, "Created – Document(s) have been created or updated"),
   (400, "Bad Request – The request provided invalid JSON data"),
   (417, "Expectation Failed – Occurs when all_or_nothing option set as true and at least one document was rejected by validation function"),
   (500, "Internal Server Error – Malformed data provided, while it’s still valid JSON")]

def stFind : StatusTable :=
  [(200, "OK - Request completed successfully"),
   (400, "Bad Request - Invalid request"),
   (401, "Unauthorized - Read permission required"),
   (500, "Internal Server Error - Query execution error")]

def stIndexCreate : StatusTable :=
  [(200, "OK - Index created successfully or already exists"),
   (400, "Bad Request - Invalid request"),
   (401, "Unauthorized - Admin permission required"),
   (500, "Internal Server Error - Execution error")]

def stIndexGet : StatusTable :=
  [(200, "OK - Success"),
   (400, "Bad Request - Invalid request"),
   (401, "Unauthorized - Read permission required"),
   (500, "Internal Server Error - Execution error")]

def stIndexDelete : StatusTable :=
  [(200, "OK - Success"),
   (400, "Bad Request - Invalid request"),
   (401, "Unauthorized - Writer permission required"),
   (404, "Not Found - Index not found"),
   (500, "Internal Server Error - Execution error")]

/-- A caller query object. -/
abbrev Query : Type := Option (List (String × Json))

/-- The rev ? query-suffix : empty-string expression used by the attachment
functions (identical in both files). -/
def revQuery (rev : String) : String :=
  if rev != "" then "?rev=" ++ rev else ""

/-- The count || 1 expression of getUuids. -/
def jsOrCount (count : Nat) : Nat :=
  if count = 0 then 1 else count

/-- The base endpoint of the free-function style, as its well-formed
components (scheme, optional auth, hostname, optional port).  Optional
string arguments of the API (document id of createDocument, revisions,
Destination id) are modelled as strings with the empty string standing for
an absent value: the source tests only their truthiness, which identifies
undefined with the empty string. -/
structure BaseUrl where
  protocol : String
  auth : Option String := none
  hostname : String
  port : Option String := none

/-- The host component (hostname, plus the port when present). -/
def BaseUrl.hostStr (b : BaseUrl) : String :=
  b.hostname ++ (match b.port with | some p => ":" ++ p | none => "")

/-- Modelled collaborator: the result of url.parse on the concatenation of a
canonical base endpoint and a path-plus-query suffix beginning with a
slash. -/
def freeCallUrl (b : BaseUrl) (rest : String) : Url :=
  { protocol := some b.protocol,
    slashes := some true,
    auth := b.auth,
    host := some b.hostStr,
    hostname := some b.hostname,
    port := b.port,
    path := some rest }

/-- One logical API call available in both calling conventions. -/
inductive LogicalCall where
  | getInfo
  | listDatabases
  | createDatabase (dbName : String)
  | getDatabase (dbName : String)
  | getDatabaseHead (dbName : String)
  | deleteDatabase (dbName : String)
  | getAllDocuments (dbName : String) (queryObj : Query)
  | getDocumentHead (dbName docId : String) (queryObj : Query)
  | getDocument (dbName docId : String) (queryObj : Query)
  | createDocument (dbName : String) (doc : JSValue) (docId : String)
  | deleteDocument (dbName docId rev : String)
  | getUuids (count : Nat)
  | getDesignDocument (dbName docId : String) (queryObj : Query)
  | getDesignDocumentInfo (dbName docId : String)
  | createDesignDocument (dbName : String) (doc : JSValue) (docId : String)
  | deleteDesignDocument (dbName docId rev : String)
  | getView (dbName docId viewName : String) (queryObj : Query)
  | createBulkDocuments (dbName : String) (payload : JSValue)
  | getAttachmentHead (dbName docId attName rev : String)
  | addAttachment (dbName docId attName rev contentType : String) (data : JSValue)
  | deleteAttachment (dbName docId attName rev : String)
  | getAttachment (dbName docId attName rev : String) (sinkOk : Bool)

/-- src/index.js:301-794: the free-function API surface.  Each case builds
the URL from the base endpoint plus the encoded segments and delegates to
request (inl) or requestStream (inr).  createBulkDocuments composes its
payload object from docs and opts identically in both styles; the composed
object is taken as the argument here. -/
def freeApi (b : BaseUrl) : LogicalCall → ParamF ⊕ ParamS
  | .getInfo =>
    .inl { url := freeCallUrl b "/", method := "GET", statusCodes := some stOk }
  | .listDatabases =>
    .inl { url := freeCallUrl b "/_all_dbs", method := "GET", statusCodes := some stOk }
  | .createDatabase db =>
    .inl { url := freeCallUrl b ("/" ++ encodeURIComponent db), method := "PUT",
           statusCodes := some stCreateDb }
  | .getDatabase db =>
    .inl { url := freeCallUrl b ("/" ++ encodeURIComponent db), method := "GET",
           statusCodes := some stGetDb }
  | .getDatabaseHead db =>
    .inl { url := freeCallUrl b ("/" ++ encodeURIComponent db), method := "HEAD",
           statusCodes := some stHeadDb }
  | .deleteDatabase db =>
    .inl { url := freeCallUrl b ("/" ++ encodeURIComponent db), method := "DELETE",
           statusCodes := some stDeleteDb }
  | .getAllDocuments db q =>
    .inl { url := freeCallUrl b ("/" ++ (encodeURIComponent db ++ "/_all_docs" ++ createQueryString q)),
           method := "GET", statusCodes := some stOk }
  | .getDocumentHead db docId q =>
    .inl { url := freeCallUrl b ("/" ++ (encodeURIComponent db ++ "/" ++ encodeURIComponent docId ++ createQueryString q)),
           method := "HEAD", statusCodes := some stHeadDoc }
  | .getDocument db docId q =>
    .inl { url := freeCallUrl b ("/" ++ (encodeURIComponent db ++ "/" ++ encodeURIComponent docId ++ createQueryString q)),
           method := "GET", statusCodes := some stGetDoc }
  | .createDocument db doc docId =>
    if docId != "" then
      .inl { url := freeCallUrl b ("/" ++ (encodeURIComponent db ++ "/" ++ encodeURIComponent docId)),
             method := "PUT", postData := doc, postContentType := some "application/json",
             statusCodes := some stCreateDocPut }
    else
      .inl { url := freeCallUrl b ("/" ++ encodeURIComponent db),
             method := "POST", postData := doc, statusCodes := some stCreateDocPost }
  | .deleteDocument db docId rev =>
    .inl { url := freeCallUrl b ("/" ++ (encodeURIComponent db ++ "/" ++ encodeURIComponent docId ++ "?rev=" ++ rev)),
           method := "DELETE", statusCodes := some stDeleteDoc }
  | .getUuids count =>
    .inl { url := freeCallUrl b ("/" ++ ("_uuids?count=" ++ toString (jsOrCount count))),
           method := "GET", statusCodes := some stUuids }
  | .getDesignDocument db docId q =>
    .inl { url := freeCallUrl b ("/" ++ (encodeURIComponent db ++ "/_design/" ++ encodeURIComponent docId ++ createQueryString q)),
           method := "GET", statusCodes := some stGetDoc }
  | .getDesignDocumentInfo db docId =>
    .inl { url := freeCallUrl b ("/" ++ (encodeURIComponent db ++ "/_design/" ++ encodeURIComponent docId ++ "/_info")),
           method := "GET", statusCodes := some stOk }
  | .createDesignDocument db doc docId =>
    .inl { url := freeCallUrl b ("/" ++ (encodeURIComponent db ++ "/_design/" ++ encodeURIComponent docId)),
           method := "PUT", postData := doc, statusCodes := some stCreateDocPut }
  | .deleteDesignDocument db docId rev =>
    .inl { url := freeCallUrl b ("/" ++ (encodeURIComponent db ++ "/_design/" ++ encodeURIComponent docId ++ "?rev=" ++ rev)),
           method := "DELETE", statusCodes := some stDeleteDoc }
  | .getView db docId viewName q =>
    .inl { url := freeCallUrl b ("/" ++ (encodeURIComponent db ++ "/_design/" ++ encodeURIComponent docId ++ "/_view/" ++ encodeURIComponent viewName ++ createQueryString q)),
           method := "GET", statusCodes := some stOk }
  | .createBulkDocuments db payload =>
    .inl { url := freeCallUrl b ("/" ++ (encodeURIComponent db ++ "/_bulk_docs")),
           method := "POST", postData := payload, statusCodes := some stBulk }
  | .getAttachmentHead db docId attName rev =>
    .inl { url := freeCallUrl b ("/" ++ (encodeURIComponent db ++ "/" ++ encodeURIComponent docId ++ "/" ++ encodeURIComponent attName ++ revQuery rev)),
           method := "HEAD", statusCodes := some stAttachmentHead }
  | .addAttachment db docId attName rev contentType data =>
    .inl { url := freeCallUrl b ("/" ++ (encodeURIComponent db ++ "/" ++ encodeURIComponent docId ++ "/" ++ encodeURIComponent attName ++ revQuery rev)),
           method := "PUT", postContentType := some contentType, postData := data,
           statusCodes := some stAttachmentAdd }
  | .deleteAttachment db docId attName rev =>
    .inl { url := freeCallUrl b ("/" ++ (encodeURIComponent db ++ "/" ++ encodeURIComponent docId ++ "/" ++ encodeURIComponent attName ++ revQuery rev)),
           method := "DELETE", statusCodes := some stAttachmentDelete }
  | .getAttachment db docId attName rev sinkOk =>
    .inr { url := freeCallUrl b ("/" ++ (encodeURIComponent db ++ "/" ++ encodeURIComponent docId ++ "/" ++ encodeURIComponent attName ++ revQuery rev)),
           statusCodes := some stAttachmentHead, sinkOk := sinkOk }

/-- Factory file 1108-1623: the factory methods shared with the free style.
Each case builds the path handed to the bound request/requestStream. -/
def factoryApi : LogicalCall → ParamB ⊕ ParamSB
  | .getInfo =>
    .inl { path := "", method := some "GET", statusCodes := some stOk }
  | .listDatabases =>
    .inl { path := "_all_dbs", method := some "GET", statusCodes := some stOk }
  | .createDatabase db =>
    .inl { path := encodeURIComponent db, method := some "PUT", statusCodes := some stCreateDb }
  | .getDatabase db =>
    .inl { path := encodeURIComponent db, method := some "GET", statusCodes := some stGetDb }
  | .getDatabaseHead db =>
    .inl { path := encodeURIComponent db, method := some "HEAD", statusCodes := some stHeadDb }
  | .deleteDatabase db =>
    .inl { path := encodeURIComponent db, method := some "DELETE", statusCodes := some stDeleteDb }
  | .getAllDocuments db q =>
    .inl { path := encodeURIComponent db ++ "/_all_docs" ++ createQueryString q,
           method := some "GET", statusCodes := some stOk }
  | .getDocumentHead db docId q =>
    .inl { path := encodeURIComponent db ++ "/" ++ encodeURIComponent docId ++ createQueryString q,
           method := some "HEAD", statusCodes := some stHeadDoc }
  | .getDocument db docId q =>
    .inl { path := encodeURIComponent db ++ "/" ++ encodeURIComponent docId ++ createQueryString q,
           method := some "GET", statusCodes := some stGetDoc }
  | .createDocument db doc docId =>
    if docId != "" then
      .inl { path := encodeURIComponent db ++ "/" ++ encodeURIComponent docId,
             method := some "PUT", postData := doc, postContentType := some "application/json",
             statusCodes := some stCreateDocPut }
    else
      .inl { path := encodeURIComponent db,
             method := some "POST", postData := doc, statusCodes := some stCreateDocPost }
  | .deleteDocument db docId rev =>
    .inl { path := encodeURIComponent db ++ "/" ++ encodeURIComponent docId ++ "?rev=" ++ rev,
           method := some "DELETE", statusCodes := some stDeleteDoc }
  | .getUuids count =>
    .inl { path := "_uuids?count=" ++ toString (jsOrCount count),
           method := some "GET", statusCodes := some stUuids }
  | .getDesignDocument db docId q =>
    .inl { path := encodeURIComponent db ++ "/_design/" ++ encodeURIComponent docId ++ createQueryString q,
           method := some "GET", statusCodes := some stGetDoc }
  | .getDesignDocumentInfo db docId =>
    .inl { path := encodeURIComponent db ++ "/_design/" ++ encodeURIComponent docId ++ "/_info",
           method := some "GET", statusCodes := some stOk }
  | .createDesignDocument db doc docId =>
    .inl { path := encodeURIComponent db ++ "/_design/" ++ encodeURIComponent docId,
           method := some "PUT", postData := doc, statusCodes := some stCreateDocPut }
  | .deleteDesignDocument db docId rev =>
    .inl { path := encodeURIComponent db ++ "/_design/" ++ encodeURIComponent docId ++ "?rev=" ++ rev,
           method := some "DELETE", statusCodes := some stDeleteDoc }
  | .getView db docId viewName q =>
    .inl { path := encodeURIComponent db ++ "/_design/" ++ encodeURIComponent docId ++ "/_view/" ++ encodeURIComponent viewName ++ createQueryString q,
           method := some "GET", statusCodes := some stOk }
  | .createBulkDocuments db payload =>
    .inl { path := encodeURIComponent db ++ "/_bulk_docs",
           method := some "POST", postData := payload, statusCodes := some stBulk }
  | .getAttachmentHead db docId attName rev =>
    .inl { path := encodeURIComponent db ++ "/" ++ encodeURIComponent docId ++ "/" ++ encodeURIComponent attName ++ revQuery rev,
           method := some "HEAD", statusCodes := some stAttachmentHead }
  | .addAttachment db docId attName rev contentType data =>
    .inl { path := encodeURIComponent db ++ "/" ++ encodeURIComponent docId ++ "/" ++ encodeURIComponent attName ++ revQuery rev,
           method := some "PUT", postContentType := some contentType, postData := data,
           statusCodes := some stAttachmentAdd }
  | .deleteAttachment db docId attName rev =>
    .inl { path := encodeURIComponent db ++ "/" ++ encodeURIComponent docId ++ "/" ++ encodeURIComponent attName ++ revQuery rev,
           method := some "DELETE", statusCodes := some stAttachmentDelete }
  | .getAttachment db docId attName rev sinkOk =>
    .inr { path := encodeURIComponent db ++ "/" ++ encodeURIComponent docId ++ "/" ++ encodeURIComponent attName ++ revQuery rev,
           statusCodes := some stAttachmentHead, sinkOk := sinkOk }

/-- A call on the factory surface: the calls shared with the free style plus
the factory-only methods. -/
inductive FactoryCall where
  | common (c : LogicalCall)
  | copyDocument (dbName docId newDocId : String)
  | findDocuments (dbName : String) (queryObj : JSValue)
  | createIndex (dbName : String) (queryObj : JSValue)
  | getIndex (dbName : String)
  | deleteIndex (dbName docId name : String)
  | getUrlPath (path : String)

/-- What a factory method invocation returns. -/
inductive ApiOutcome where
  /-- The function returned undefined: no deferred result exists at all. -/
  | undefinedReturn
  /-- A buffered-request promise whose synchronous phase gave this
  preflight. -/
  | pre (p : Preflight)
  /-- A stream-request promise; an assertThrown here is raised inside the
  then chain of getAttachment, so the promise rejects with the bare
  AssertionError rather than an envelope. -/
  | streamPre (sp : StreamPreflight)

/-- Factory file 1094-1696: dispatch of every method of the returned couch
object, threading the shared httpOptions.headers state.  copyDocument
(1267-1283) returns a request only when both document ids are truthy;
otherwise the function falls off its end and returns undefined.
getUrlPath (1689-1694) assigns the misspelled property methode, leaving
method undefined. -/
def couchCall (cl : Client) (hs : Headers) : FactoryCall → ApiOutcome × Headers
  | .common c =>
    match factoryApi c with
    | .inl p =>
      let r := requestFactory cl hs p
      (.pre r.1, r.2)
    | .inr p =>
      let r := requestStreamFactory cl hs p
      (.streamPre r.1, r.2)
  | .copyDocument db docId newDocId =>
    if docId != "" && newDocId != "" then
      let r := requestFactory cl hs
        { path := encodeURIComponent db ++ "/" ++ encodeURIComponent docId,
          method := some "COPY", destination := some newDocId,
          statusCodes := some stCreateDocPut }
      (.pre r.1, r.2)
    else (.undefinedReturn, hs)
  | .findDocuments db q =>
    let r := requestFactory cl hs
      { path := encodeURIComponent db ++ "/_find", method := some "POST",
        postData := q, statusCodes := some stFind }
    (.pre r.1, r.2)
  | .createIndex db q =>
    let r := requestFactory cl hs
      { path := encodeURIComponent db ++ "/_index", method := some "POST",
        postData := q, statusCodes := some stIndexCreate }
    (.pre r.1, r.2)
  | .getIndex db =>
    let r := requestFactory cl hs
      { path := encodeURIComponent db ++ "/_index", method := some "GET",
        statusCodes := some stIndexGet }
    (.pre r.1, r.2)
  | .deleteIndex db docId name =>
    let r := requestFactory cl hs
      { path := encodeURIComponent db ++ "/_index/" ++ encodeURIComponent docId ++ "/json/" ++ encodeURIComponent name,
        method := some "DELETE", statusCodes := some stIndexDelete }
    (.pre r.1, r.2)
  | .getUrlPath path =>
    let r := requestFactory cl hs { path := path }
    (.pre r.1, r.2)

/-- The wire request of a buffered preflight (none when the call never
reaches the network). -/
def toWire : Preflight → Option WireRequest
  | .network w => some w
  | _ => none

/-- The wire request of a stream preflight. -/
def toWireS : StreamPreflight → Option WireRequest
  | .network w => some w
  | _ => none

/-- The wire request a free-style logical call hands to the transport (none
when the call never reaches the network). -/
def freeWire (b : BaseUrl) (c : LogicalCall) : Option WireRequest :=
  match freeApi b c with
  | .inl p => toWire (requestFree p)
  | .inr p => toWireS (requestStreamFree p)

/-- The wire request a factory-style logical call hands to the transport,
given the current shared-headers state. -/
def factoryWire (cl : Client) (hs : Headers) (c : LogicalCall) : Option WireRequest :=
  match factoryApi c with
  | .inl p => toWire (requestFactory cl hs p).1
  | .inr p => toWireS (requestStreamFactory cl hs p).1

/-- Whether a logical call goes through the stream executor. -/
def isStreamCall : LogicalCall → Bool
  | .getAttachment _ _ _ _ _ => true
  | _ => false

/-- Whether a logical call carries the JS null as payload (the one payload
the two encoders classify differently). -/
def hasNullPayload : LogicalCall → Bool
  | .createDocument _ doc _ => doc == .null
  | .createDesignDocument _ doc _ => doc == .null
  | .createBulkDocuments _ payload => payload == .null
  | .addAttachment _ _ _ _ _ data => data == .null
  | _ => false

/-- The payload a factory call hands to the request (undefined when the
method sends no body). -/
def fcPayload : FactoryCall → JSValue
  | .common (.createDocument _ doc _) => doc
  | .common (.createDesignDocument _ doc _) => doc
  | .common (.createBulkDocuments _ payload) => payload
  | .common (.addAttachment _ _ _ _ _ data) => data
  | .findDocuments _ q => q
  | .createIndex _ q => q
  | _ => .undefined

/-! ## Helper lemmas -/

theorem tlookup_def (t : StatusTable) (code : Nat) :
    tlookup t code = (t.find? (fun kv => kv.1 = code)).map (fun kv => kv.2) := rfl

/-- find? over the shadowed copy of the base table: the keys are unchanged,
so the first hit is the first hit of base, with its value shadowed. -/
theorem find?_shadow (ov : StatusTable) (code : Nat) (base : StatusTable) :
    (base.map (fun kv =>
      match tlookup ov kv.1 with
      | some v => (kv.1, v)
      | none => kv)).find? (fun kv => kv.1 = code) =
    (base.find? (fun kv => kv.1 = code)).map (fun kv =>
      match tlookup ov kv.1 with
      | some v => (kv.1, v)
      | none => kv) := by
  induction base with
  | nil => rfl
  | cons kv rest ih =>
    obtain ⟨k, v⟩ := kv
    by_cases h : k = code
    · subst h
      cases htl : tlookup ov k <;> simp [List.find?_cons, htl]
    · cases htl : tlookup ov k <;> simp [List.find?_cons, htl, h, ih]

/-- find? commutes with the membership filter when the sought key is not in
the base table. -/
theorem find?_filter_base (base : StatusTable) (code : Nat)
    (hb : tlookup base code = none) (ov : StatusTable) :
    (ov.filter (fun kv => (tlookup base kv.1).isNone)).find? (fun kv => kv.1 = code) =
    ov.find? (fun kv => kv.1 = code) := by
  induction ov with
  | nil => rfl
  | cons kv rest ih =>
    obtain ⟨k, v⟩ := kv
    by_cases h : k = code
    · subst h
      simp [List.filter_cons, List.find?_cons, hb]
    · by_cases hkeep : (tlookup base k).isNone = true
      · simp [List.filter_cons, List.find?_cons, hkeep, h, ih]
      · simp only [Bool.not_eq_true] at hkeep
        simp [List.filter_cons, List.find?_cons, hkeep, h, ih]

/-- Object.assign({}, base, ov) looks up as: the override entry when the
override has the key, else the base entry. -/
theorem tlookup_objAssign (base ov : StatusTable) (code : Nat) :
    tlookup (objAssign base ov) code =
      match tlookup ov code with
      | some w => some w
      | none => tlookup base code := by
  unfold objAssign
  rw [tlookup_def, List.find?_append, find?_shadow]
  cases hb : base.find? (fun kv => kv.1 = code) with
  | none =>
    have hbl : tlookup base code = none := by rw [tlookup_def, hb]; rfl
    rw [find?_filter_base base code hbl ov]
    cases hov : ov.find? (fun kv => kv.1 = code) <;>
      simp [tlookup_def, hov, hb, hbl]
  | some kv =>
    have hk : kv.1 = code := by
      have := List.find?_some hb
      simpa using this
    cases hov : tlookup ov code <;>
      simp [tlookup_def, hov, hb, hk] <;>
      rw [tlookup_def] at hov <;> simp [hov]

/-! ## Claim theorems -/

/-- C6: a malformed target URL in the free-function style (scheme not http
or https, missing host, or non-numeric port) makes the call settle
immediately as a rejection with the status-400 bad-request envelope; the
preflight never reaches the network constructor. -/
theorem c6_bad_target_rejected (p : ParamF)
    (h : (p.url.protocol ≠ some "http:" ∧ p.url.protocol ≠ some "https:") ∨
         truthyS p.url.hostname = false ∨ jsNumberIsNaN p.url.port = true) :
    requestFree p =
      .reject { headers := [], data := some (.jsError "Bad request"), status := 400,
                message := "Error: Bad request" } := by
  have hv : isValidUrl p.url = false := by
    unfold isValidUrl
    rcases h with ⟨h1, h2⟩ | h | h
    · simp [h1, h2]
    · simp [h]
    · simp [h]
  simp [requestFree, hv, badRequestEnvelope]

/-- Witness for C6 at a concrete ftp target. -/
theorem c6_witness :
    requestFree
      { url := { protocol := some "ftp:", slashes := some true, host := some "h",
                 hostname := some "h", path := some "/" }, method := "GET" } =
      .reject { headers := [], data := some (.jsError "Bad request"), status := 400,
                message := "Error: Bad request" } :=
  c6_bad_target_rejected _ (Or.inl (by simp))

/-- C9: a factory configuration whose baseUrl is missing, or whose parsed
baseUrl has a scheme other than http/https, lacks a hostname, or lacks a
parseInt-able port, makes the constructor throw synchronously; no client is
produced. -/
theorem c9_constructor_throws (opt : FactoryOpt)
    (h : opt.baseUrl = none ∨
         ∃ u, opt.baseUrl = some u ∧
           ((u.protocol ≠ some "http:" ∧ u.protocol ≠ some "https:") ∨
            truthyS u.hostname = false ∨ parseIntIsNaN u.port = true)) :
    ∃ msg, mkCouch opt = .error msg := by
  rcases h with h | ⟨u, hu, hbad⟩
  · exact ⟨"missing property " ++ dq ++ "baseUrl" ++ dq, by simp [mkCouch, h]⟩
  · refine ⟨"invalid baseUrl", ?_⟩
    rcases hbad with ⟨h1, h2⟩ | h | h
    · simp [mkCouch, hu, h1, h2]
    · simp [mkCouch, hu, h]
    · simp [mkCouch, hu, h]

/-- Witness for C9 at a concrete misconfiguration (missing baseUrl). -/
theorem c9_witness : ∃ msg, mkCouch {} = .error msg :=
  c9_constructor_throws {} (Or.inl rfl)

/-- C10: in the free-function style, a target URL without an explicit port
is sent to port 443 by both the buffered and the stream executor, regardless
of the scheme (including plain http). -/
theorem c10_default_port_443 (p : ParamF) (ps : ParamS) (w ws : WireRequest)
    (hp : p.url.port = none) (hps : ps.url.port = none) :
    (requestFree p = .network w → w.port = .n 443) ∧
    (requestStreamFree ps = .network ws → ws.port = .n 443) := by
  constructor
  · intro hw
    cases hvv : isValidUrl p.url with
    | false => simp [requestFree, hvv] at hw
    | true =>
      cases henc : encodePayloadFree p.postData p.postContentType with
      | ok bdy strm asg =>
        have hred : requestFree p = .network
            { hostname := p.url.host.map splitColonHead, port := jsOrPort p.url.port,
              path := p.url.path, auth := p.url.auth, protocol := p.url.protocol,
              method := some p.method, headers := applyAssigns baseHeadersFree asg,
              body := wireBodyOf bdy strm } := by
          simp [requestFree, hvv, henc]
        rw [hred] at hw
        cases hw
        simp [jsOrPort, hp]
      | invalid d => simp [requestFree, hvv, henc] at hw
      | thrown m asg => simp [requestFree, hvv, henc] at hw
  · intro hw
    cases hso : ps.sinkOk with
    | false => simp [requestStreamFree, hso] at hw
    | true =>
      cases hvv : isValidUrl ps.url with
      | false => simp [requestStreamFree, hso, hvv] at hw
      | true =>
        have hred : requestStreamFree ps = .network
            { hostname := ps.url.host.map splitColonHead, port := jsOrPort ps.url.port,
              path := ps.url.path, auth := ps.url.auth, protocol := ps.url.protocol,
              method := some "GET", headers := baseHeadersStreamFree,
              body := .empty } := by
          simp [requestStreamFree, hso, hvv]
        rw [hred] at hw
        cases hw
        simp [jsOrPort, hps]

/-- A concrete plain-http target without an explicit port, for the C10
witness. -/
def c10pF : ParamF :=
  { url := { protocol := some "http:", slashes := some true, host := some "h",
             hostname := some "h", path := some "/x" }, method := "GET" }

/-- The stream variant of the C10 witness target. -/
def c10pS : ParamS :=
  { url := { protocol := some "http:", slashes := some true, host := some "h",
             hostname := some "h", path := some "/x" }, sinkOk := true }

/-- Witness for C10: a plain http URL with no port goes to 443 on both
executors. -/
theorem c10_witness :
    ∃ w ws : WireRequest,
      requestFree c10pF = .network w ∧ requestStreamFree c10pS = .network ws ∧
      w.port = .n 443 ∧ ws.port = .n 443 := by
  obtain ⟨w, hw⟩ : ∃ w, requestFree c10pF = .network w := ⟨_, rfl⟩
  obtain ⟨ws, hws⟩ : ∃ ws, requestStreamFree c10pS = .network ws := ⟨_, rfl⟩
  exact ⟨w, ws, hw, hws,
    (c10_default_port_443 c10pF c10pS w ws rfl rfl).1 hw,
    (c10_default_port_443 c10pF c10pS w ws rfl rfl).2 hws⟩

/-- C8, counterexample: an override table may hold an entry that is present
but empty; both resolvers then ignore it (the || chain treats it as falsy),
so the resolver does not return the override entry for the code even though
one is present — the free style falls through to the generic table and the
factory style to "unknown status" (the empty entry shadows the merged
generic entry there). -/
theorem c8_counterexample :
    tlookup [(200, "")] 200 = some "" ∧
    resolveStatusFree [(200, "")] 200 = "OK" ∧
    statusCode (some [(200, "")]) 200 = "unknown status" := by
  refine ⟨rfl, rfl, ?_⟩
  rfl

/-- C8 as amended: the Status Resolver is a pure lookup returning the
override entry when one is present and non-empty (in both styles); when the
override lacks the code, the free style falls back to the generic table
entry via the || chain and the factory style to the Node status table merged
underneath, both defaulting to "unknown status".  (Determinism is inherent:
both resolvers are pure functions of the table and code.) -/
theorem c8_resolver_lookup (t : StatusTable) (code : Nat) :
    (∀ s, tlookup t code = some s → s ≠ "" →
      resolveStatusFree t code = s ∧ statusCode (some t) code = s) ∧
    (tlookup t code = none →
      resolveStatusFree t code = jsOrS (tlookup GENERIC_STATUS_CODES code) "unknown status" ∧
      statusCode (some t) code = jsOrS (tlookup STATUS_CODES_NODE code) "unknown status") := by
  constructor
  · intro s hs hne
    constructor
    · simp [resolveStatusFree, hs, jsOrS, hne]
    · have hm := tlookup_objAssign STATUS_CODES_NODE t code
      rw [hs] at hm
      simp [statusCode, hm, jsOrS, hne]
  · intro hnone
    constructor
    · simp [resolveStatusFree, hnone, jsOrS]
    · have hm := tlookup_objAssign STATUS_CODES_NODE t code
      rw [hnone] at hm
      simp [statusCode, hm, jsOrS]

/-- Witness for C8: a populated override entry wins in both styles, and an
absent entry falls back (404 resolves from the respective generic tables). -/
theorem c8_witness :
    resolveStatusFree [(299, "custom")] 299 = "custom" ∧
    statusCode (some [(299, "custom")]) 299 = "custom" ∧
    resolveStatusFree [(299, "custom")] 404 = "Not Found" ∧
    statusCode (some [(299, "custom")]) 404 = "Not Found" := by
  have h1 := (c8_resolver_lookup [(299, "custom")] 299).1 "custom" rfl (by simp)
  have h2 := (c8_resolver_lookup [(299, "custom")] 404).2 rfl
  exact ⟨h1.1, h1.2, h2.1, h2.2⟩

/-- A concrete modelled JSON.parse collaborator used by response-handler
witnesses: it parses the empty-object text and one sample document and
reports a syntax error on anything else. -/
def parseStub : String → Except String Json :=
  fun s =>
    if s = emptyObjectText then .ok (.obj [])
    else if s = "[1]" then .ok (.arr [.num 1])
    else .error "Unexpected token"

/-- C7: on response end in both styles, an empty accumulated body is parsed
as the empty-object text (so the envelope data is the parsed empty object),
and a body the JSON collaborator rejects settles the call with a status-500
envelope embedding the parse error instead of propagating the exception
(fulfilled in the free style, rejected in the factory style since 500 is
not below 400). -/
theorem c7_parse_handling (parse : String → Except String Json) (st : Option StatusTable)
    (hdrs : List (String × String)) (code : Nat) (buffer : String) (d : Nat) :
    (parse emptyObjectText = .ok (.obj []) →
      handleEndFree parse st hdrs code "" =
        .fulfilled { headers := hdrs, data := some (.json (.obj [])), status := code,
                     message := resolveStatusFree (st.getD []) code } ∧
      handleEndFactory parse st hdrs code "" d =
        (if code < 400 then Settlement.fulfilled else Settlement.rejected)
          { headers := hdrs, data := some (.json (.obj [])), status := code,
            message := statusCode st code, duration := some d }) ∧
    (∀ e, parse (if buffer = "" then emptyObjectText else buffer) = .error e →
      handleEndFree parse st hdrs code buffer =
        .fulfilled { headers := hdrs, data := some (.jsError e), status := 500,
                     message := jsOrS (some e) "internal error" } ∧
      handleEndFactory parse st hdrs code buffer d =
        .rejected { headers := hdrs, data := some (.errWrap (.rawString e)), status := 500,
                    message := jsOrS (some e) "internal error", duration := some d }) := by
  constructor
  · intro hp
    constructor
    · simp [handleEndFree, hp]
    · by_cases hlt : code < 400 <;> simp [handleEndFactory, hp, hlt]
  · intro e he
    constructor
    · simp [handleEndFree, he]
    · simp [handleEndFactory, he]

/-- Witness for C7 with the concrete parse stub: an empty body at 200, and
an unparseable body at 200. -/
theorem c7_witness :
    handleEndFree parseStub none [] 200 "" =
      .fulfilled { headers := [], data := some (.json (.obj [])), status := 200,
                   message := "OK" } ∧
    handleEndFactory parseStub none [] 200 "nonsense" 7 =
      .rejected { headers := [], data := some (.errWrap (.rawString "Unexpected token")),
                  status := 500, message := "Unexpected token", duration := some 7 } := by
  constructor
  · exact ((c7_parse_handling parseStub none [] 200 "x" 0).1 rfl).1
  · exact ((c7_parse_handling parseStub none [] 200 "nonsense" 7).2 "Unexpected token" rfl).2

/-- C5, counterexample: for a well-formed JSON error response (status 404,
empty JSON body) the factory style rejects, but the free-function style
resolves the very same envelope on the success channel — the free request
end handler calls resolve unconditionally, so the two calling conventions do
not agree and the claimed rejection does not happen in the free style. -/
theorem c5_counterexample :
    handleEndFree parseStub (some stGetDoc) [] 404 "" =
      .fulfilled { headers := [], data := some (.json (.obj [])), status := 404,
                   message := "Not Found - Document not found" } ∧
    (handleEndFree parseStub (some stGetDoc) [] 404 "").isRejection = false ∧
    (handleEndFactory parseStub (some stGetDoc) [] 404 "" 0).isRejection = true := by
  exact ⟨rfl, rfl, rfl⟩

/-- C5 as amended: for a well-formed JSON response with an error status
(at least 400), the factory style settles as a rejection whose data is the
parsed error body and whose message is the resolved status text, while the
free-function style fulfills with that same parsed body and resolved
message (error statuses surface on the success channel there). -/
theorem c5_error_status_settlement (parse : String → Except String Json)
    (st : Option StatusTable) (hdrs : List (String × String)) (code : Nat)
    (buffer : String) (j : Json) (d : Nat)
    (hok : parse (if buffer = "" then emptyObjectText else buffer) = .ok j)
    (hge : 400 ≤ code) :
    handleEndFactory parse st hdrs code buffer d =
      .rejected { headers := hdrs, data := some (.json j), status := code,
                  message := statusCode st code, duration := some d } ∧
    handleEndFree parse st hdrs code buffer =
      .fulfilled { headers := hdrs, data := some (.json j), status := code,
                   message := resolveStatusFree (st.getD []) code } := by
  have hnl : ¬ code < 400 := Nat.not_lt.mpr hge
  constructor
  · simp [handleEndFactory, hok, hnl]
  · simp [handleEndFree, hok]

/-- Witness for C5 as amended, at a concrete 404 with a parsed body. -/
theorem c5_witness :
    handleEndFactory parseStub (some stGetDoc) [] 404 "[1]" 3 =
      .rejected { headers := [], data := some (.json (.arr [.num 1])), status := 404,
                  message := "Not Found - Document not found", duration := some 3 } ∧
    handleEndFree parseStub (some stGetDoc) [] 404 "[1]" =
      .fulfilled { headers := [], data := some (.json (.arr [.num 1])), status := 404,
                   message := "Not Found - Document not found" } := by
  have h := c5_error_status_settlement parseStub (some stGetDoc) [] 404 "[1]"
    (.arr [.num 1]) 3 rfl (by decide)
  exact ⟨h.1, h.2⟩

/-- A reserved-key entry is replaced by its JSON serialization by its own
transformation step. -/
theorem mem_jsonifyStep_self (o : List (String × Json)) (k : String) (v : Json)
    (hm : (k, v) ∈ o) :
    (k, Json.str (jsonStringify v)) ∈ jsonifyStep o k := by
  unfold jsonifyStep
  have hany : o.any (fun kv => kv.1 = k) = true := by
    rw [List.any_eq_true]
    exact ⟨(k, v), hm, by simp⟩
  rw [if_pos hany]
  have := List.mem_map_of_mem
    (f := fun kv => if kv.1 = k then (kv.1, Json.str (jsonStringify kv.2)) else kv) hm
  simpa using this

/-- A transformation step for a different key leaves an entry unchanged. -/
theorem mem_jsonifyStep_ne (o : List (String × Json)) (key k : String) (v : Json)
    (hne : k ≠ key) (hm : (k, v) ∈ o) :
    (k, v) ∈ jsonifyStep o key := by
  unfold jsonifyStep
  split
  · have := List.mem_map_of_mem
      (f := fun kv => if kv.1 = key then (kv.1, Json.str (jsonStringify kv.2)) else kv) hm
    simpa [hne] using this
  · exact hm

/-- Membership of a reserved entry after the whole reserved-key pass. -/
theorem mem_jsonifyReserved_reserved (o : List (String × Json)) (k : String) (v : Json)
    (hk : k ∈ QUERY_KEYS_JSON) (hm : (k, v) ∈ o) :
    (k, Json.str (jsonStringify v)) ∈ jsonifyReserved o := by
  have hreserved : k = "key" ∨ k = "keys" ∨ k = "startkey" ∨ k = "endkey" := by
    simpa [QUERY_KEYS_JSON] using hk
  show (k, Json.str (jsonStringify v)) ∈
    jsonifyStep (jsonifyStep (jsonifyStep (jsonifyStep o "key") "keys") "startkey") "endkey"
  rcases hreserved with h | h | h | h <;> subst h
  · exact mem_jsonifyStep_ne _ _ _ _ (by decide)
      (mem_jsonifyStep_ne _ _ _ _ (by decide)
        (mem_jsonifyStep_ne _ _ _ _ (by decide)
          (mem_jsonifyStep_self _ _ _ hm)))
  · exact mem_jsonifyStep_ne _ _ _ _ (by decide)
      (mem_jsonifyStep_ne _ _ _ _ (by decide)
        (mem_jsonifyStep_self _ _ _
          (mem_jsonifyStep_ne _ _ _ _ (by decide) hm)))
  · exact mem_jsonifyStep_ne _ _ _ _ (by decide)
      (mem_jsonifyStep_self _ _ _
        (mem_jsonifyStep_ne _ _ _ _ (by decide)
          (mem_jsonifyStep_ne _ _ _ _ (by decide) hm)))
  · exact mem_jsonifyStep_self _ _ _
      (mem_jsonifyStep_ne _ _ _ _ (by decide)
        (mem_jsonifyStep_ne _ _ _ _ (by decide)
          (mem_jsonifyStep_ne _ _ _ _ (by decide) hm)))

/-- A non-reserved entry passes through the reserved-key pass untouched. -/
theorem mem_jsonifyReserved_other (o : List (String × Json)) (k : String) (v : Json)
    (hk : k ∉ QUERY_KEYS_JSON) (hm : (k, v) ∈ o) :
    (k, v) ∈ jsonifyReserved o := by
  simp only [QUERY_KEYS_JSON, List.mem_cons, List.not_mem_nil, or_false, not_or] at hk
  obtain ⟨h1, h2, h3, h4⟩ := hk
  exact mem_jsonifyStep_ne _ _ _ _ h4
    (mem_jsonifyStep_ne _ _ _ _ h3
      (mem_jsonifyStep_ne _ _ _ _ h2
        (mem_jsonifyStep_ne _ _ _ _ h1 hm)))

/-- An entry of a query object whose value is not an array contributes its
form-encoded key=value component to the querystring components. -/
theorem mem_qsPairs (kvs : List (String × Json)) (k : String) (v : Json)
    (hm : (k, v) ∈ kvs) (hv : ∀ es, v ≠ Json.arr es) :
    (qsEscape k ++ "=" ++ qsEscape (qsPrimitive v)) ∈ qsPairs kvs := by
  induction kvs with
  | nil => cases hm
  | cons kv rest ih =>
    rcases List.mem_cons.mp hm with heq | hmem
    · subst heq
      cases v with
      | arr es => exact absurd rfl (hv es)
      | null => simp [qsPairs]
      | bool b => simp [qsPairs]
      | num n => simp [qsPairs]
      | str s => simp [qsPairs]
      | obj fs => simp [qsPairs]
    · obtain ⟨k2, v2⟩ := kv
      cases v2 with
      | arr es => simp [qsPairs, ih hmem]
      | null => simp [qsPairs, ih hmem]
      | bool b => simp [qsPairs, ih hmem]
      | num n => simp [qsPairs, ih hmem]
      | str s => simp [qsPairs, ih hmem]
      | obj fs => simp [qsPairs, ih hmem]

/-- A transformation step preserves the number of entries. -/
theorem length_jsonifyStep (o : List (String × Json)) (k : String) :
    (jsonifyStep o k).length = o.length := by
  unfold jsonifyStep
  split <;> simp

/-- The reserved-key pass preserves the number of entries. -/
theorem length_jsonifyReserved (o : List (String × Json)) :
    (jsonifyReserved o).length = o.length := by
  show (jsonifyStep (jsonifyStep (jsonifyStep (jsonifyStep o "key") "keys") "startkey") "endkey").length = o.length
  simp [length_jsonifyStep]

/-- C3: the query builder JSON-serializes the value of each reserved key
present (so string values are surrounded by JSON quotes before
form-encoding), emits every non-reserved entry by plain form-encoding of
the unquoted value, and emits no question mark when the parameter set is
empty; when it is nonempty the output is the question mark followed by the
ampersand-joined components. -/
theorem c3_query_builder (q : List (String × Json)) :
    (createQueryString none = "" ∧ createQueryString (some []) = "") ∧
    (q ≠ [] → createQueryString (some q) = "?" ++ qsStringify (jsonifyReserved q)) ∧
    (∀ k v, (k, v) ∈ q → k ∈ QUERY_KEYS_JSON →
      (qsEscape k ++ "=" ++ qsEscape (jsonStringify v)) ∈ qsPairs (jsonifyReserved q)) ∧
    (∀ k v, (k, v) ∈ q → k ∉ QUERY_KEYS_JSON → (∀ es, v ≠ Json.arr es) →
      (qsEscape k ++ "=" ++ qsEscape (qsPrimitive v)) ∈ qsPairs (jsonifyReserved q)) ∧
    (∀ s, jsonStringify (Json.str s) = dq ++ (jsonEscape s ++ dq)) := by
  refine ⟨⟨rfl, rfl⟩, ?_, ?_, ?_, ?_⟩
  · intro hne
    have hlen : (jsonifyReserved q).length ≠ 0 := by
      rw [length_jsonifyReserved]
      simpa using hne
    simp [createQueryString, hlen]
  · intro k v hm hk
    have := mem_qsPairs (jsonifyReserved q) k (Json.str (jsonStringify v))
      (mem_jsonifyReserved_reserved q k v hk hm) (by intro es h; cases h)
    simpa [qsPrimitive] using this
  · intro k v hm hk hv
    exact mem_qsPairs (jsonifyReserved q) k v (mem_jsonifyReserved_other q k v hk hm) hv
  · intro s
    simp [jsonStringify, String.append_assoc]

/-- Witness for C3 at a concrete query object: the reserved startkey value
is emitted JSON-quoted, the non-reserved limit is emitted plain, and a
nonempty object gets the question-mark prefix. -/
theorem c3_witness :
    ("startkey=%22foo%22" ∈ qsPairs (jsonifyReserved [("startkey", .str "foo"), ("limit", .num 3)]) ∧
     "limit=3" ∈ qsPairs (jsonifyReserved [("startkey", .str "foo"), ("limit", .num 3)])) ∧
    createQueryString (some [("startkey", .str "foo"), ("limit", .num 3)]) =
      "?" ++ qsStringify (jsonifyReserved [("startkey", .str "foo"), ("limit", .num 3)]) ∧
    createQueryString (some []) = "" := by
  have h := c3_query_builder [("startkey", Json.str "foo"), ("limit", Json.num 3)]
  refine ⟨⟨?_, ?_⟩, h.2.1 (by simp), h.1.2⟩
  · have := h.2.2.1 "startkey" (.str "foo") (by simp) (by simp [QUERY_KEYS_JSON])
    simpa using this
  · have := h.2.2.2.1 "limit" (.num 3) (by simp) (by simp [QUERY_KEYS_JSON])
      (by intro es h2; cases h2)
    simpa using this

/-- The payload class the encoder has no branch for: everything that is not
a buffer, a readable stream, a plain object or a string. -/
def unsupportedPayload : JSValue → Bool
  | .buffer _ => false
  | .stream => false
  | .obj _ => false
  | .str _ => false
  | _ => true

/-- C2, counterexample: a falsy unsupported payload (the boolean false, or
the number 0) is not rejected — the final truthiness guard skips it, the
encoder treats it as an absent body and the request proceeds to the network
bodiless; and a payload whose JSON serialization throws is not rejected with
a status-400 envelope either — after the catch the code computes
Buffer.byteLength of the undefined body, which raises a synchronous
TypeError before the rejection check is reached. -/
theorem c2_counterexample :
    encodePayloadFree (.bool false) none = .ok .none false [] ∧
    encodePayloadFree (.num 0) none = .ok .none false [] ∧
    encodePayloadFree (.obj none) none =
      .thrown byteLengthTypeError [("content-type", .s "application/json")] ∧
    requestFree { url := c10pF.url, method := "POST", postData := .bool false } =
      .network { hostname := some "h", port := .n 443, path := some "/x", auth := none,
                 protocol := some "http:", method := some "POST",
                 headers := baseHeadersFree, body := .empty } := by
  exact ⟨rfl, rfl, rfl, rfl⟩

/-- C2 as amended: the encoder dispatches by structural inspection in the
order buffer, stream, plain object, string — a buffer is sent as-is with the
caller content type and its byte length; a stream is sent chunked and
unbuffered; a serializable object is JSON-serialized with content type
application/json and the UTF-8 byte length of the serialized text; a string
is sent as-is with its character length — a truthy value of any other kind
(and, in the factory style, also null) is rejected as a status-400
invalid-payload failure before any network I/O, while a falsy one (false, 0,
and null in the free style) is treated as an absent payload and the request
proceeds bodiless, and a JSON-serialization failure escapes as a synchronous
TypeError instead of a rejection. -/
theorem c2_payload_encoder (pct : Option String) :
    (∀ bs, encodePayloadFree (.buffer bs) pct =
      .ok (.bytes bs) false
        [("content-type", hvOfCT pct), ("content-length", .n bs.length)]) ∧
    (encodePayloadFree .stream pct =
      .ok .none true
        [("content-type", hvOfCT pct), ("Transfer-Encoding", .s "chunked")]) ∧
    (∀ s, encodePayloadFree (.obj (some s)) pct =
      .ok (.text s) false
        [("content-type", .s "application/json"), ("content-length", .n s.utf8ByteSize)]) ∧
    (∀ s, encodePayloadFree (.str s) pct =
      .ok (.text s) false
        [("content-type", hvOfCT pct), ("content-length", .n s.length)]) ∧
    (∀ (p : ParamF), isValidUrl p.url = true → unsupportedPayload p.postData = true →
      p.postData.truthy = true →
      requestFree p = .reject { headers := [], data := some (.rawString "unsoported post data"),
                                status := 400, message := "invalid post data" }) ∧
    (∀ v, unsupportedPayload v = true → v.truthy = false →
      encodePayloadFree v pct = .ok .none false []) ∧
    (encodePayloadFactory .null pct = .invalid (.errWrap (.rawString "unsupported post data"))) ∧
    (encodePayloadFree (.obj none) pct =
      .thrown byteLengthTypeError [("content-type", .s "application/json")]) := by
  refine ⟨fun bs => rfl, rfl, fun s => rfl, fun s => rfl, ?_, ?_, rfl, rfl⟩
  · intro p hvv hun htr
    have henc : encodePayloadFree p.postData p.postContentType =
        .invalid (.rawString "unsoported post data") := by
      cases hpd : p.postData <;> simp_all [encodePayloadFree, unsupportedPayload, JSValue.truthy]
    simp [requestFree, hvv, henc]
  · intro v hun htr
    cases v <;> simp_all [encodePayloadFree, unsupportedPayload, JSValue.truthy]

/-- Witness for C2 as amended: a truthy number payload is rejected with the
status-400 invalid-payload envelope before any network request, and a buffer
goes out with its byte length. -/
theorem c2_witness :
    requestFree { url := c10pF.url, method := "POST", postData := .num 5 } =
      .reject { headers := [], data := some (.rawString "unsoported post data"),
                status := 400, message := "invalid post data" } ∧
    encodePayloadFree (.buffer [104, 105]) (some "text/plain") =
      .ok (.bytes [104, 105]) false
        [("content-type", .s "text/plain"), ("content-length", .n 2)] := by
  constructor
  · exact (c2_payload_encoder none).2.2.2.2.1
      { url := c10pF.url, method := "POST", postData := .num 5 } rfl rfl rfl
  · exact (c2_payload_encoder (some "text/plain")).1 [104, 105]

/-- For every payload except null, the factory encoder agrees with the free
encoder up to the spelling and wrapping of the invalid-payload data. -/
theorem encodeFactory_agree (v : JSValue) (pct : Option String)
    (hnull : (v == JSValue.null) = false) :
    encodePayloadFactory v pct =
      match encodePayloadFree v pct with
      | .ok bdy strm asg => .ok bdy strm asg
      | .invalid _ => .invalid (.errWrap (.rawString "unsupported post data"))
      | .thrown m asg => .thrown m asg := by
  cases v with
  | undefined => rfl
  | null => simp at hnull
  | bool bv => cases bv <;> rfl
  | num n =>
    by_cases hn : n = 0
    · subst hn; rfl
    · have hb : (n != 0) = true := by simpa using hn
      simp [encodePayloadFree, encodePayloadFactory, JSValue.truthy, hb]
  | str s => rfl
  | buffer bs => rfl
  | stream => rfl
  | obj ser => cases ser <;> rfl
  | arr => rfl

/-- Number(p) is not NaN for a digit-string port. -/
theorem jsNumberIsNaN_digits (prt : String) (hdig : prt.data.all Char.isDigit = true) :
    jsNumberIsNaN (some prt) = false := by
  unfold jsNumberIsNaN
  simp [hdig]

/-- parseInt(p, 10) is not NaN for a nonempty digit-string port. -/
theorem parseIntIsNaN_digits (prt : String) (hne : prt ≠ "")
    (hdig : prt.data.all Char.isDigit = true) :
    parseIntIsNaN (some prt) = false := by
  unfold parseIntIsNaN
  obtain ⟨l⟩ := prt
  cases l with
  | nil => exact absurd rfl hne
  | cons c cs =>
    simp only [String.data] at hdig
    simp only [List.all_cons, Bool.and_eq_true] at hdig
    simp [hdig.1]

/-- The free-style validity check accepts every URL built over a well-formed
base endpoint. -/
theorem isValidUrl_freeCall (b : BaseUrl) (rest : String)
    (hproto : b.protocol = "http:" ∨ b.protocol = "https:")
    (hnan : jsNumberIsNaN b.port = false)
    (hhost : b.hostname ≠ "") :
    isValidUrl (freeCallUrl b rest) = true := by
  unfold isValidUrl freeCallUrl truthyS
  rcases hproto with h | h <;> simp [h, hnan, hhost]

/-- The generic wire-equality of the buffered path: a free-style request and
a factory-style request over the same base endpoint, path, method and
payload (with a fresh factory headers object, no Destination header, and a
non-null payload) either both fail preflight or hand the transport identical
wire requests. -/
theorem buffered_wire_eq (b : BaseUrl) (prt : String) (p : ParamF) (pb : ParamB)
    (hproto : b.protocol = "http:" ∨ b.protocol = "https:")
    (hport : b.port = some prt) (hprtNe : prt ≠ "")
    (hdig : prt.data.all Char.isDigit = true)
    (hhost : b.hostname ≠ "")
    (hurl : p.url = freeCallUrl b ("/" ++ pb.path))
    (hmeth : pb.method = some p.method)
    (hpd : pb.postData = p.postData)
    (hpct : pb.postContentType = p.postContentType)
    (hdest : pb.destination = none)
    (hnull : (p.postData == JSValue.null) = false) :
    toWire (requestFree p) =
    toWire (requestFactory
        { hostname := some (splitColonHead b.hostStr), port := b.port, auth := b.auth,
          protocol := some b.protocol, rejectUnauthorized := true, requestTimeout := 10000 }
        baseHeadersFactory pb).1 := by
  have hnan : jsNumberIsNaN b.port = false := by
    rw [hport]; exact jsNumberIsNaN_digits prt hdig
  have hv : isValidUrl (freeCallUrl b ("/" ++ pb.path)) = true :=
    isValidUrl_freeCall b _ hproto hnan hhost
  have hagree := encodeFactory_agree p.postData p.postContentType hnull
  have hhostp : (freeCallUrl b ("/" ++ pb.path)).host = some b.hostStr := rfl
  have hportp : (freeCallUrl b ("/" ++ pb.path)).port = b.port := rfl
  have hpathp : (freeCallUrl b ("/" ++ pb.path)).path = some ("/" ++ pb.path) := rfl
  have hauthp : (freeCallUrl b ("/" ++ pb.path)).auth = b.auth := rfl
  have hprotop : (freeCallUrl b ("/" ++ pb.path)).protocol = some b.protocol := rfl
  cases henc : encodePayloadFree p.postData p.postContentType with
  | ok bdy strm asg =>
    have henc2 : encodePayloadFactory pb.postData pb.postContentType = .ok bdy strm asg := by
      rw [hpd, hpct, hagree, henc]
    simp [requestFree, requestFactory, toWire, hv, henc, henc2, hdest, hmeth, hurl,
      hhostp, hportp, hpathp, hauthp, hprotop,
      jsOrPort, clientPortVal, hport, hprtNe, baseHeadersFree, baseHeadersFactory]
  | invalid d =>
    have henc2 : encodePayloadFactory pb.postData pb.postContentType =
        .invalid (.errWrap (.rawString "unsupported post data")) := by
      rw [hpd, hpct, hagree, henc]
    simp [requestFree, requestFactory, toWire, hv, henc, henc2, hdest, hurl]
  | thrown m asg =>
    have henc2 : encodePayloadFactory pb.postData pb.postContentType = .thrown m asg := by
      rw [hpd, hpct, hagree, henc]
    simp [requestFree, requestFactory, toWire, hv, henc, henc2, hdest, hurl]

/-- The base endpoint of the concrete C4 inputs. -/
def bW : BaseUrl := { protocol := "http:", hostname := "localhost", port := some "5984" }

/-- The client the factory constructor captures for that base endpoint. -/
def clW : Client :=
  { hostname := some "localhost", port := some "5984", auth := none,
    protocol := some "http:", rejectUnauthorized := true, requestTimeout := 10000 }

/-- C4, counterexample: over the same concrete base endpoint (validated by
the factory constructor), the stream-executor call getAttachment produces
different wire requests in the two styles (the free style sends no accept
header there), and after a payload-bearing factory call the shared headers
object retains content-type/content-length, so a subsequent getDocument also
differs from its free-style counterpart. -/
theorem c4_counterexample :
    mkCouch { baseUrl := some (freeCallUrl bW "/") } = .ok clW ∧
    freeWire bW (.getAttachment "db" "doc" "att" "" true) ≠
      factoryWire clW baseHeadersFactory (.getAttachment "db" "doc" "att" "" true) ∧
    freeWire bW (.getDocument "db" "id" none) ≠
      factoryWire clW
        (couchCall clW baseHeadersFactory
          (.common (.createDocument "db" (.obj (some emptyObjectText)) "id"))).2
        (.getDocument "db" "id" none) := by
  refine ⟨rfl, ?_, ?_⟩ <;> decide

/-- C4 as amended: for every logical call available in both conventions
other than the stream call getAttachment, with a well-formed base endpoint
carrying an explicit numeric port, a factory instance constructed from that
endpoint whose shared headers are still in their initial state, and a
payload other than null, the two calling conventions hand the transport
identical wire requests (same method, path and query string, headers, port
selection and encoded body) — or both fail preflight identically.  The
stream call differs in its headers, and factory calls after a
payload-bearing call inherit stale headers, as the counterexample shows. -/
theorem c4_wire_equivalence (b : BaseUrl) (prt : String) (cl : Client) (c : LogicalCall)
    (hproto : b.protocol = "http:" ∨ b.protocol = "https:")
    (hport : b.port = some prt) (hprtNe : prt ≠ "")
    (hdig : prt.data.all Char.isDigit = true)
    (hhost : b.hostname ≠ "")
    (hcl : mkCouch { baseUrl := some (freeCallUrl b "/") } = .ok cl)
    (hstream : isStreamCall c = false)
    (hnull : hasNullPayload c = false) :
    freeWire b c = factoryWire cl baseHeadersFactory c := by
  have hpi : parseIntIsNaN b.port = false := by
    rw [hport]; exact parseIntIsNaN_digits prt hprtNe hdig
  have hclv : cl =
      { hostname := some (splitColonHead b.hostStr), port := b.port, auth := b.auth,
        protocol := some b.protocol, rejectUnauthorized := true, requestTimeout := 10000 } := by
    have hok : mkCouch { baseUrl := some (freeCallUrl b "/") } = .ok
        { hostname := some (splitColonHead b.hostStr), port := b.port, auth := b.auth,
          protocol := some b.protocol, rejectUnauthorized := true, requestTimeout := 10000 } := by
      unfold mkCouch freeCallUrl truthyS
      rcases hproto with h | h <;> simp [h, hpi, hhost]
    rw [hok] at hcl
    exact (Except.ok.inj hcl).symm
  subst hclv
  cases c
  case getAttachment db docId att rev sinkOk => simp [isStreamCall] at hstream
  case createDocument db doc docId =>
    have hn : (doc == JSValue.null) = false := by simpa [hasNullPayload] using hnull
    cases hid : (docId != "") <;>
      simp only [freeWire, factoryWire, freeApi, factoryApi, hid, Bool.false_eq_true,
        if_false, if_true] <;>
      refine buffered_wire_eq b prt _ _ hproto hport hprtNe hdig hhost ?_ ?_ ?_ ?_ ?_ ?_ <;>
      first
      | rfl
      | exact hn
  case createDesignDocument db doc docId =>
    have hn : (doc == JSValue.null) = false := by simpa [hasNullPayload] using hnull
    simp only [freeWire, factoryWire, freeApi, factoryApi]
    refine buffered_wire_eq b prt _ _ hproto hport hprtNe hdig hhost ?_ ?_ ?_ ?_ ?_ ?_ <;>
      first
      | rfl
      | exact hn
  case createBulkDocuments db payload =>
    have hn : (payload == JSValue.null) = false := by simpa [hasNullPayload] using hnull
    simp only [freeWire, factoryWire, freeApi, factoryApi]
    refine buffered_wire_eq b prt _ _ hproto hport hprtNe hdig hhost ?_ ?_ ?_ ?_ ?_ ?_ <;>
      first
      | rfl
      | exact hn
  case addAttachment db docId att rev ct data =>
    have hn : (data == JSValue.null) = false := by simpa [hasNullPayload] using hnull
    simp only [freeWire, factoryWire, freeApi, factoryApi]
    refine buffered_wire_eq b prt _ _ hproto hport hprtNe hdig hhost ?_ ?_ ?_ ?_ ?_ ?_ <;>
      first
      | rfl
      | exact hn
  all_goals
    simp only [freeWire, factoryWire, freeApi, factoryApi]
  all_goals
    refine buffered_wire_eq b prt _ _ hproto hport hprtNe hdig hhost ?_ ?_ ?_ ?_ ?_ ?_ <;> rfl

/-- Witness for C4 as amended: a concrete getDocument call produces the same
wire request in both styles. -/
theorem c4_witness :
    freeWire bW (.getDocument "db" "id" none) =
      factoryWire clW baseHeadersFactory (.getDocument "db" "id" none) :=
  c4_wire_equivalence bW "5984" clW (.getDocument "db" "id" none)
    (Or.inl rfl) rfl (by decide) (by decide) (by decide) rfl rfl rfl

/-- A thrown preflight of the factory request can only come from the
payload-encoding section, on an unserializable plain object. -/
theorem requestFactory_thrown (cl : Client) (hs : Headers) (p : ParamB) (m : String)
    (h : (requestFactory cl hs p).1 = .thrown m) :
    p.postData = .obj none ∧ m = byteLengthTypeError := by
  cases henc : encodePayloadFactory p.postData p.postContentType with
  | ok bdy strm asg => simp [requestFactory, henc] at h
  | invalid d => simp [requestFactory, henc] at h
  | thrown m2 asg =>
    have hobj : p.postData = .obj none ∧ m2 = byteLengthTypeError := by
      cases hpd : p.postData with
      | obj ser =>
        cases ser with
        | none =>
          rw [hpd] at henc
          simp only [encodePayloadFactory] at henc
          exact ⟨rfl, (EncResult.thrown.inj henc.symm).1⟩
        | some s => rw [hpd] at henc; simp [encodePayloadFactory] at henc
      | num n =>
        rw [hpd] at henc
        simp only [encodePayloadFactory] at henc
        split at henc <;> cases henc
      | bool bv =>
        rw [hpd] at henc
        cases bv <;> simp [encodePayloadFactory, JSValue.truthy] at henc
      | undefined => rw [hpd] at henc; simp [encodePayloadFactory, JSValue.truthy] at henc
      | null => rw [hpd] at henc; simp [encodePayloadFactory, JSValue.truthy] at henc
      | str s => rw [hpd] at henc; simp [encodePayloadFactory] at henc
      | buffer bs => rw [hpd] at henc; simp [encodePayloadFactory] at henc
      | stream => rw [hpd] at henc; simp [encodePayloadFactory] at henc
      | arr => rw [hpd] at henc; simp [encodePayloadFactory, JSValue.truthy] at henc
    have hm2 : m2 = m := by simp [requestFactory, henc] at h; exact h
    exact ⟨hobj.1, hm2 ▸ hobj.2⟩

/-- The payload a shared logical call hands to the factory request is the
payload recorded by fcPayload. -/
theorem factoryApi_postData (c : LogicalCall) (p : ParamB) (hp : factoryApi c = .inl p) :
    p.postData = fcPayload (.common c) := by
  cases c with
  | createDocument db doc docId =>
    cases hid : (docId != "") <;>
      simp [factoryApi, hid] at hp <;> rw [← hp] <;> rfl
  | _ =>
    simp [factoryApi] at hp <;> rw [← hp] <;> rfl

/-- C1 as amended: on the factory surface, every method call yields a
deferred result except couch.copyDocument with a falsy document id or
destination id, which returns undefined (no settlement ever); a synchronous
exception can escape the synchronous phase only from the payload encoding of
4.2 (an unserializable plain object); and every terminal network event of
either executor settles the call with exactly one Result Envelope (the
settlement functions are single-valued, and each event maps to one fulfilled
or rejected envelope).  The stream call with an invalid sink rejects with a
bare assertion error rather than an envelope, as the counterexample
records. -/
theorem c1_settlement_discipline (cl : Client) (hs : Headers) (fc : FactoryCall) :
    ((couchCall cl hs fc).1 = .undefinedReturn ↔
      ∃ db docId newDocId, fc = .copyDocument db docId newDocId ∧
        (docId = "" ∨ newDocId = "")) ∧
    (∀ m, (couchCall cl hs fc).1 = .pre (.thrown m) → fcPayload fc = .obj none) ∧
    (∀ parse st d ev, ∃ e : Envelope,
      settleFactory parse st d ev = .fulfilled e ∨ settleFactory parse st d ev = .rejected e) ∧
    (∀ parse st ev, ∃ e : Envelope,
      settleFree parse st ev = .fulfilled e ∨ settleFree parse st ev = .rejected e) := by
  refine ⟨?_, ?_, ?_, ?_⟩
  · cases fc with
    | common c =>
      cases hf : factoryApi c with
      | inl p => simp [couchCall, hf]
      | inr p => simp [couchCall, hf]
    | copyDocument db docId newDocId =>
      cases hd : (docId != "" && newDocId != "") with
      | true =>
        have hne : docId ≠ "" ∧ newDocId ≠ "" := by
          simp only [Bool.and_eq_true, bne_iff_ne] at hd
          exact hd
        simp [couchCall, hd, hne.1, hne.2]
      | false =>
        have hor : docId = "" ∨ newDocId = "" := by
          rcases Bool.and_eq_false_iff.mp hd with h | h
          · exact Or.inl (by simpa using h)
          · exact Or.inr (by simpa using h)
        simp only [couchCall, hd, Bool.false_eq_true, if_false]
        constructor
        · intro _
          exact ⟨db, docId, newDocId, rfl, hor⟩
        · intro _
          trivial
    | findDocuments db q => simp [couchCall]
    | createIndex db q => simp [couchCall]
    | getIndex db => simp [couchCall]
    | deleteIndex db docId name => simp [couchCall]
    | getUrlPath path => simp [couchCall]
  · intro m hm
    cases fc with
    | common c =>
      cases hf : factoryApi c with
      | inl p =>
        simp only [couchCall, hf] at hm
        have := requestFactory_thrown cl hs p m (by
          have h2 := hm
          simp only [ApiOutcome.pre.injEq] at h2
          exact h2)
        rw [← factoryApi_postData c p hf]
        exact this.1
      | inr p => simp [couchCall, hf] at hm
    | copyDocument db docId newDocId =>
      cases hd : (docId != "" && newDocId != "") with
      | true =>
        simp only [couchCall, hd, if_true] at hm
        simp only [ApiOutcome.pre.injEq] at hm
        have := requestFactory_thrown cl hs _ m hm
        cases this.1
      | false => simp [couchCall, hd] at hm
    | findDocuments db q =>
      simp only [couchCall, ApiOutcome.pre.injEq] at hm
      exact (requestFactory_thrown cl hs _ m hm).1
    | createIndex db q =>
      simp only [couchCall, ApiOutcome.pre.injEq] at hm
      exact (requestFactory_thrown cl hs _ m hm).1
    | getIndex db =>
      simp only [couchCall, ApiOutcome.pre.injEq] at hm
      have := requestFactory_thrown cl hs _ m hm
      cases this.1
    | deleteIndex db docId name =>
      simp only [couchCall, ApiOutcome.pre.injEq] at hm
      have := requestFactory_thrown cl hs _ m hm
      cases this.1
    | getUrlPath path =>
      simp only [couchCall, ApiOutcome.pre.injEq] at hm
      have := requestFactory_thrown cl hs _ m hm
      cases this.1
  · intro parse st d ev
    cases ev with
    | response h s bdy =>
      cases hp : parse (if bdy = "" then emptyObjectText else bdy) with
      | ok j =>
        by_cases hlt : s < 400
        · exact ⟨{ headers := h, data := some (.json j), status := s,
                   message := statusCode st s, duration := some d },
            Or.inl (by simp [settleFactory, handleEndFactory, hp, hlt])⟩
        · exact ⟨{ headers := h, data := some (.json j), status := s,
                   message := statusCode st s, duration := some d },
            Or.inr (by simp [settleFactory, handleEndFactory, hp, hlt])⟩
      | error er =>
        exact ⟨{ headers := h, data := some (.errWrap (.rawString er)), status := 500,
                 message := jsOrS (some er) "internal error", duration := some d },
          Or.inr (by simp [settleFactory, handleEndFactory, hp])⟩
    | timeout => exact ⟨_, Or.inr rfl⟩
    | transportError msg => exact ⟨_, Or.inr rfl⟩
  · intro parse st ev
    cases ev with
    | response h s bdy =>
      cases hp : parse (if bdy = "" then emptyObjectText else bdy) with
      | ok j =>
        exact ⟨{ headers := h, data := some (.json j), status := s,
                 message := resolveStatusFree (st.getD []) s },
          Or.inl (by simp [settleFree, handleEndFree, hp])⟩
      | error er =>
        exact ⟨{ headers := h, data := some (.jsError er), status := 500,
                 message := jsOrS (some er) "internal error" },
          Or.inl (by simp [settleFree, handleEndFree, hp])⟩
    | timeout => exact ⟨_, Or.inr rfl⟩
    | transportError msg => exact ⟨_, Or.inr rfl⟩

/-- C1, counterexample: couch.copyDocument with a falsy destination id
returns undefined — no deferred result, so no envelope is ever produced —
and getAttachment with an invalid sink settles its deferred with a bare
AssertionError instead of a Result Envelope. -/
theorem c1_counterexample :
    (couchCall clW baseHeadersFactory (.copyDocument "db" "a" "")).1 =
      ApiOutcome.undefinedReturn ∧
    (couchCall clW baseHeadersFactory (.common (.getAttachment "db" "a" "att" "" false))).1 =
      .streamPre (.assertThrown "is writeable stream") :=
  ⟨rfl, rfl⟩

/-- Witness for C1 as amended: a copyDocument call with both ids present is
not the undefined-returning case, and the one with an empty destination is. -/
theorem c1_witness :
    (couchCall clW baseHeadersFactory (.copyDocument "db" "a" "")).1 = .undefinedReturn ∧
    ¬ (couchCall clW baseHeadersFactory (.copyDocument "db" "a" "b")).1 = .undefinedReturn := by
  constructor
  · exact (c1_settlement_discipline clW baseHeadersFactory
      (.copyDocument "db" "a" "")).1.mpr ⟨"db", "a", "", rfl, Or.inr rfl⟩
  · intro hu
    obtain ⟨db, d, n, heq, hor⟩ := (c1_settlement_discipline clW baseHeadersFactory
      (.copyDocument "db" "a" "b")).1.mp hu
    cases heq
    rcases hor with h | h
    · exact absurd h (by decide)
    · exact absurd h (by decide)

end Couch
